import Mathlib

/-!
Shallow embedding of the iceoryx2 Python binding sources:
  - allocation_strategy.rs
  - unique_client_id.rs
  - service_builder_request_response.rs
The registry protocol (create/open/open_or_create) that the builder's
terminal operations delegate to lives in the iceoryx2 crate and is not part
of the sources; those parts are modelled from the spec (sections 4.2-4.4 and
7) and are marked as such in their doc comments.
-/

set_option maxHeartbeats 1000000

/-! ## allocation_strategy.rs -/

/-- The Python-facing `AllocationStrategy` enum from allocation_strategy.rs. -/
inductive AllocationStrategy
  | BestFit
  | PowerOfTwo
  | Static
  deriving DecidableEq, Repr

/-- Modelled from the spec: `iceoryx2::prelude::AllocationStrategy`, the
crate-side enum; its three variants are exactly those named by the two
`From` impls in allocation_strategy.rs. -/
inductive PreludeAllocationStrategy
  | Static
  | BestFit
  | PowerOfTwo
  deriving DecidableEq, Repr

/-- `impl From<iceoryx2::prelude::AllocationStrategy> for AllocationStrategy`
(allocation_strategy.rs lines 37-45). -/
def AllocationStrategy.from_prelude : PreludeAllocationStrategy → AllocationStrategy
  | PreludeAllocationStrategy.Static => AllocationStrategy.Static
  | PreludeAllocationStrategy.BestFit => AllocationStrategy.BestFit
  | PreludeAllocationStrategy.PowerOfTwo => AllocationStrategy.PowerOfTwo

/-- `impl From<AllocationStrategy> for iceoryx2::prelude::AllocationStrategy`
(allocation_strategy.rs lines 47-55). -/
def PreludeAllocationStrategy.from_py : AllocationStrategy → PreludeAllocationStrategy
  | AllocationStrategy.Static => PreludeAllocationStrategy.Static
  | AllocationStrategy.BestFit => PreludeAllocationStrategy.BestFit
  | AllocationStrategy.PowerOfTwo => PreludeAllocationStrategy.PowerOfTwo

/-! ## unique_client_id.rs -/

/-- Modelled from the spec: `iceoryx2::port::port_identifiers::UniqueClientId`,
the crate-side identifier; the only facts the binding uses are that it has
decidable equality and exposes a raw u128 via `value()`. -/
structure RawUniqueClientId where
  raw_value : Nat
  deriving DecidableEq, Repr

/-- The Python-facing wrapper `UniqueClientId` from unique_client_id.rs:
a one-field struct around the crate-side id. -/
structure UniqueClientId where
  id : RawUniqueClientId
  deriving DecidableEq, Repr

/-- `UniqueClientId::value` (unique_client_id.rs lines 22-26): returns the
underlying raw value of the id. -/
def UniqueClientId.value (self : UniqueClientId) : Nat :=
  self.id.raw_value

/-- The derived `PartialEq`/`Eq` on the wrapper (unique_client_id.rs line 16):
structural equality, i.e. equality of the single wrapped field. -/
def UniqueClientId.eq (a b : UniqueClientId) : Bool :=
  decide (a.id = b.id)

/-! ## service_builder_request_response.rs: configuration data model

The builder accumulates type contracts, capacities and policy flags
(spec sections 3, 4.1, 4.3). -/

/-- A `TypeDetail` / TypeContract entry (spec section 3): wire shape of a
payload or header. -/
structure TypeDetail where
  size : Nat
  alignment : Nat
  variable_size : Bool
  deriving DecidableEq, Repr

/-- The messaging-pattern policy flags the builder accumulates
(`enable_safe_overflow_for_requests/responses`,
`enable_fire_and_forget_requests`); an opener must match them exactly
(spec section 4.4, open). -/
structure MessagingPatternSettings where
  safe_overflow_for_requests : Bool
  safe_overflow_for_responses : Bool
  fire_and_forget_requests : Bool
  deriving DecidableEq, Repr

/-- The numeric capacity bundle (spec section 3, CapacityConfig): exact
capacities for a creator, minimum requirements for an opener. -/
structure CapacityConfig where
  max_active_requests_per_client : Nat
  max_loaned_requests : Nat
  max_response_buffer_size : Nat
  max_servers : Nat
  max_clients : Nat
  max_nodes : Nat
  max_borrowed_responses_per_pending_response : Nat
  deriving DecidableEq, Repr

/-- The whole configuration a request-response builder accumulates:
four type contracts, the policy flags and the capacities. -/
structure BuilderConfig where
  request_payload : TypeDetail
  request_header : TypeDetail
  response_payload : TypeDetail
  response_header : TypeDetail
  settings : MessagingPatternSettings
  capacities : CapacityConfig
  deriving DecidableEq, Repr

/-- An attribute set (spec section 3): ordered key-value pairs, duplicate
keys allowed, fixed at creation. -/
abbrev AttributeSet : Type := List (String × String)

/-- Modelled from the spec: `AttributeVerifier` (spec sections 3, 4.2), the
requirement set checked at open time - required (key, value) pairs plus
required keys whose value is unconstrained. -/
structure AttributeVerifier where
  required_attributes : List (String × String)
  required_keys : List String
  deriving DecidableEq, Repr

/-- A requirement (key, value) holds when the set has at least one entry with
that exact key and value (spec section 4.2). -/
def attributeSetContainsPair (s : AttributeSet) (kv : String × String) : Bool :=
  s.any fun e => decide (e = kv)

/-- A `require_key` requirement holds when the set has at least one entry
with that key, regardless of value (spec section 4.2). -/
def attributeSetContainsKey (s : AttributeSet) (k : String) : Bool :=
  s.any fun e => decide (e.1 = k)

/-- Modelled from the spec: the attribute-matching algorithm run at open
time (spec section 4.2) - every required pair and every required key must be
satisfied by the existing service's attribute set. -/
def verifierSatisfied (s : AttributeSet) (v : AttributeVerifier) : Bool :=
  (v.required_attributes.all fun kv => attributeSetContainsPair s kv) &&
  (v.required_keys.all fun k => attributeSetContainsKey s k)

/-- The verifier with no requirements, used by the plain (attribute-free)
terminal operations. -/
def emptyVerifier : AttributeVerifier :=
  { required_attributes := [], required_keys := [] }

/-! ## Modelled from the spec: the ServiceRegistry (spec section 4.4)

The create/open/open-or-create protocol the builder's terminal operations
delegate to lives in the iceoryx2 crate, outside the given sources; it is
modelled here from spec sections 4.4, 5 and 7. -/

/-- Modelled from the spec: the persistent `ServiceDescriptor` record
(spec section 3) - the configuration fixed at creation, the attribute set,
and a reference count. -/
structure ServiceDescriptor where
  config : BuilderConfig
  attributes : AttributeSet
  reference_count : Nat
  deriving DecidableEq, Repr

/-- Modelled from the spec: the registry's shared directory mapping service
names to descriptors (spec section 4.4). -/
abbrev Registry : Type := List (String × ServiceDescriptor)

/-- Look a service name up in the registry directory. -/
def findService : Registry → String → Option ServiceDescriptor
  | [], _ => none
  | (n, d) :: rest, name =>
    if n = name then some d else findService rest name

/-- Increment the reference count of the named descriptor (spec section 4.4:
attaching a process to a descriptor increments its reference_count). -/
def attachService : Registry → String → Registry
  | [], _ => []
  | (n, d) :: rest, name =>
    if n = name then
      (n, { d with reference_count := d.reference_count + 1 }) :: rest
    else
      (n, d) :: attachService rest name

/-- Errors of the registry's `create` (spec sections 4.4, 7): the name is
already claimed. Transport-level failures (ResourceExhausted) are outside
the model, as the transport collaborator is out of scope. -/
inductive CreateError
  | AlreadyExists
  deriving DecidableEq, Repr

/-- Errors of the registry's `open` (spec sections 4.4, 7). -/
inductive OpenError
  | DoesNotExist
  | IncompatibleTypes
  | IncompatibleMessagingPattern
  | InsufficientCapacity
  | IncompatibleAttributes
  deriving DecidableEq, Repr

/-- Errors surfaced by `open_or_create` (spec sections 4.4, 7): a non-racy
open or create failure passes through, and exhausting the bounded retry of
the create/open race (TransientRace) is terminal. -/
inductive OpenOrCreateError
  | OpenFailed (e : OpenError)
  | CreateFailed (e : CreateError)
  | RetriesExhausted
  deriving DecidableEq, Repr

/-- The two request/response TypeContracts match exactly: size, alignment
and variable-size flag equal for all four details (spec section 4.4, open). -/
def typeContractsMatch (a b : BuilderConfig) : Bool :=
  decide (a.request_payload = b.request_payload ∧
    a.request_header = b.request_header ∧
    a.response_payload = b.response_payload ∧
    a.response_header = b.response_header)

/-- The messaging-pattern flags match exactly (spec section 4.4, open). -/
def settingsMatch (a b : BuilderConfig) : Bool :=
  decide (a.settings = b.settings)

/-- Every capacity the opener requests as a minimum is at most the actual
capacity fixed at creation (spec section 4.4, open). -/
def capacitiesAtLeast (actual requested : CapacityConfig) : Bool :=
  decide (requested.max_active_requests_per_client ≤ actual.max_active_requests_per_client ∧
    requested.max_loaned_requests ≤ actual.max_loaned_requests ∧
    requested.max_response_buffer_size ≤ actual.max_response_buffer_size ∧
    requested.max_servers ≤ actual.max_servers ∧
    requested.max_clients ≤ actual.max_clients ∧
    requested.max_nodes ≤ actual.max_nodes ∧
    requested.max_borrowed_responses_per_pending_response ≤ actual.max_borrowed_responses_per_pending_response)

/-- Modelled from the spec: `ServiceRegistry.create` (spec section 4.4) -
atomically claim the name; fail with `AlreadyExists` if a descriptor for the
name exists; on success the configuration's numeric fields become the exact
reserved capacities and the attribute set is written, with an initial
reference count of one. -/
def ServiceRegistry.create (r : Registry) (name : String) (cfg : BuilderConfig)
    (attrs : AttributeSet) : Registry × Except CreateError ServiceDescriptor :=
  match findService r name with
  | some _ => (r, Except.error CreateError.AlreadyExists)
  | none =>
    let d : ServiceDescriptor :=
      { config := cfg, attributes := attrs, reference_count := 1 }
    ((name, d) :: r, Except.ok d)

/-- Modelled from the spec: `ServiceRegistry.open` (spec section 4.4;
`open` is a Lean keyword, hence `openService`) - locate the descriptor,
require the type contracts and pattern flags to match exactly, every
requested capacity to be a satisfied minimum, and the attribute
requirements to hold; on success attach (incrementing the reference count)
and return the descriptor fixed at creation. -/
def ServiceRegistry.openService (r : Registry) (name : String) (cfg : BuilderConfig)
    (ver : AttributeVerifier) : Registry × Except OpenError ServiceDescriptor :=
  match findService r name with
  | none => (r, Except.error OpenError.DoesNotExist)
  | some d =>
    if !typeContractsMatch d.config cfg then
      (r, Except.error OpenError.IncompatibleTypes)
    else if !settingsMatch d.config cfg then
      (r, Except.error OpenError.IncompatibleMessagingPattern)
    else if !capacitiesAtLeast d.config.capacities cfg.capacities then
      (r, Except.error OpenError.InsufficientCapacity)
    else if !verifierSatisfied d.attributes ver then
      (r, Except.error OpenError.IncompatibleAttributes)
    else
      (attachService r name, Except.ok d)

/-! ## Modelled from the spec: the open_or_create race-resolution loop

Spec section 4.4: attempt `open` first; on `DoesNotExist` attempt `create`;
if that fails with `AlreadyExists` (a concurrent process won the race),
retry `open`, bounded by a small fixed retry count. The loop is modelled as
a small-step machine so that interference from other processes between the
atomic registry steps (the racy interleavings of spec section 5) is
expressible: every step is a function of the registry state it observes. -/

/-- The parameters a single open_or_create participant carries: the service
name, its accumulated configuration, the attributes it would define on
creation, and the requirements it verifies when opening. -/
structure ProcParams where
  name : String
  cfg : BuilderConfig
  attrs : AttributeSet
  ver : AttributeVerifier
  deriving Repr

/-- Control state of one open_or_create participant: about to attempt an
open (with the remaining retry budget), about to attempt a create, or
finished with a result. -/
inductive OpenOrCreateState
  | tryOpen (fuel : Nat)
  | tryCreate (fuel : Nat)
  | done (res : Except OpenOrCreateError ServiceDescriptor)

/-- One atomic step of the open_or_create loop (spec section 4.4):
open first; on `DoesNotExist` fall through to create; a create lost to a
concurrent winner (`AlreadyExists`) retries the open while retry budget
remains and surfaces `RetriesExhausted` once it is spent; any other open
failure is terminal and passes through. -/
def procStep (p : ProcParams) :
    OpenOrCreateState → Registry → OpenOrCreateState × Registry
  | OpenOrCreateState.done res, r => (OpenOrCreateState.done res, r)
  | OpenOrCreateState.tryOpen fuel, r =>
    match ServiceRegistry.openService r p.name p.cfg p.ver with
    | (r1, Except.ok d) => (OpenOrCreateState.done (Except.ok d), r1)
    | (r1, Except.error OpenError.DoesNotExist) =>
      (OpenOrCreateState.tryCreate fuel, r1)
    | (r1, Except.error e) =>
      (OpenOrCreateState.done (Except.error (OpenOrCreateError.OpenFailed e)), r1)
  | OpenOrCreateState.tryCreate fuel, r =>
    match ServiceRegistry.create r p.name p.cfg p.attrs with
    | (r1, Except.ok d) => (OpenOrCreateState.done (Except.ok d), r1)
    | (r1, Except.error CreateError.AlreadyExists) =>
      match fuel with
      | 0 => (OpenOrCreateState.done (Except.error OpenOrCreateError.RetriesExhausted), r1)
      | n + 1 => (OpenOrCreateState.tryOpen n, r1)

/-- Run `k` steps of one participant's loop against the shared registry. -/
def runProc : Nat → ProcParams → OpenOrCreateState → Registry →
    OpenOrCreateState × Registry
  | 0, _, s, r => (s, r)
  | k + 1, p, s, r =>
    let sr := procStep p s r
    runProc k p sr.1 sr.2

/-- The small fixed retry bound of the open_or_create race loop
(spec section 9: a small fixed bound, e.g. 3-5 attempts). -/
def OPEN_OR_CREATE_MAX_RETRIES : Nat := 4

/-- Modelled from the spec: `ServiceRegistry.open_or_create`
(spec section 4.4) - run the race-resolution loop from a fresh open attempt
with the fixed retry budget; the step budget `2 * retries + 2` suffices for
the loop to finish (proved below), so the fallback arm is never taken. -/
def ServiceRegistry.open_or_create (p : ProcParams) (r : Registry) :
    Registry × Except OpenOrCreateError ServiceDescriptor :=
  match runProc (2 * OPEN_OR_CREATE_MAX_RETRIES + 2) p
      (OpenOrCreateState.tryOpen OPEN_OR_CREATE_MAX_RETRIES) r with
  | (OpenOrCreateState.done res, r1) => (r1, res)
  | (_, r1) => (r1, Except.error OpenOrCreateError.RetriesExhausted)

/-! ## service_builder_request_response.rs: the builder

The Rust builder is an enum with an `Ipc` and a `Local` variant, each
holding an iceoryx2 crate-side builder. The crate-side builder is outside
the given sources; it is modelled from the spec (sections 4.1, 4.3, 4.5) as
a value carrying the service name and the accumulated configuration, with
each setter a pure field update. -/

/-- The service kind a builder was constructed for (spec section 3,
PortFactory: service-kind tag Ipc or Local). -/
inductive ServiceKind
  | Ipc
  | Local
  deriving DecidableEq, Repr

/-- Modelled from the spec: the crate-side
`iceoryx2::service::builder::request_response::Builder` - the service name
the builder was created for plus the accumulated configuration
(spec section 4.5: the builder accumulates TypeContract, CapacityConfig and
flags as pure value transformations). -/
structure InnerBuilder where
  service_name : String
  config : BuilderConfig
  deriving DecidableEq, Repr

/-- Modelled from the spec: `__internal_set_request_payload_type_details`. -/
def InnerBuilder.__internal_set_request_payload_type_details
    (self : InnerBuilder) (value : TypeDetail) : InnerBuilder :=
  { self with config := { self.config with request_payload := value } }

/-- Modelled from the spec: `__internal_set_request_header_type_details`. -/
def InnerBuilder.__internal_set_request_header_type_details
    (self : InnerBuilder) (value : TypeDetail) : InnerBuilder :=
  { self with config := { self.config with request_header := value } }

/-- Modelled from the spec: `__internal_set_response_payload_type_details`. -/
def InnerBuilder.__internal_set_response_payload_type_details
    (self : InnerBuilder) (value : TypeDetail) : InnerBuilder :=
  { self with config := { self.config with response_payload := value } }

/-- Modelled from the spec: `__internal_set_response_header_type_details`. -/
def InnerBuilder.__internal_set_response_header_type_details
    (self : InnerBuilder) (value : TypeDetail) : InnerBuilder :=
  { self with config := { self.config with response_header := value } }

/-- Modelled from the spec: `request_payload_alignment` - overrides and
increases the alignment of the request payload. -/
def InnerBuilder.request_payload_alignment
    (self : InnerBuilder) (value : Nat) : InnerBuilder :=
  { self with config := { self.config with request_payload :=
      { self.config.request_payload with
        alignment := max self.config.request_payload.alignment value } } }

/-- Modelled from the spec: `response_payload_alignment` - overrides and
increases the alignment of the response payload. -/
def InnerBuilder.response_payload_alignment
    (self : InnerBuilder) (value : Nat) : InnerBuilder :=
  { self with config := { self.config with response_payload :=
      { self.config.response_payload with
        alignment := max self.config.response_payload.alignment value } } }

/-- Modelled from the spec: `enable_safe_overflow_for_requests`. -/
def InnerBuilder.enable_safe_overflow_for_requests
    (self : InnerBuilder) (value : Bool) : InnerBuilder :=
  { self with config := { self.config with settings :=
      { self.config.settings with safe_overflow_for_requests := value } } }

/-- Modelled from the spec: `enable_safe_overflow_for_responses`. -/
def InnerBuilder.enable_safe_overflow_for_responses
    (self : InnerBuilder) (value : Bool) : InnerBuilder :=
  { self with config := { self.config with settings :=
      { self.config.settings with safe_overflow_for_responses := value } } }

/-- Modelled from the spec: `enable_fire_and_forget_requests`. -/
def InnerBuilder.enable_fire_and_forget_requests
    (self : InnerBuilder) (value : Bool) : InnerBuilder :=
  { self with config := { self.config with settings :=
      { self.config.settings with fire_and_forget_requests := value } } }

/-- Modelled from the spec: `max_active_requests_per_client`. -/
def InnerBuilder.max_active_requests_per_client
    (self : InnerBuilder) (value : Nat) : InnerBuilder :=
  { self with config := { self.config with capacities :=
      { self.config.capacities with max_active_requests_per_client := value } } }

/-- Modelled from the spec: `max_loaned_requests`. -/
def InnerBuilder.max_loaned_requests
    (self : InnerBuilder) (value : Nat) : InnerBuilder :=
  { self with config := { self.config with capacities :=
      { self.config.capacities with max_loaned_requests := value } } }

/-- Modelled from the spec: `max_response_buffer_size`. -/
def InnerBuilder.max_response_buffer_size
    (self : InnerBuilder) (value : Nat) : InnerBuilder :=
  { self with config := { self.config with capacities :=
      { self.config.capacities with max_response_buffer_size := value } } }

/-- Modelled from the spec: `max_servers`. -/
def InnerBuilder.max_servers
    (self : InnerBuilder) (value : Nat) : InnerBuilder :=
  { self with config := { self.config with capacities :=
      { self.config.capacities with max_servers := value } } }

/-- Modelled from the spec: `max_clients`. -/
def InnerBuilder.max_clients
    (self : InnerBuilder) (value : Nat) : InnerBuilder :=
  { self with config := { self.config with capacities :=
      { self.config.capacities with max_clients := value } } }

/-- Modelled from the spec: `max_nodes`. -/
def InnerBuilder.max_nodes
    (self : InnerBuilder) (value : Nat) : InnerBuilder :=
  { self with config := { self.config with capacities :=
      { self.config.capacities with max_nodes := value } } }

/-- Modelled from the spec: `max_borrowed_responses_per_pending_response`. -/
def InnerBuilder.max_borrowed_responses_per_pending_response
    (self : InnerBuilder) (value : Nat) : InnerBuilder :=
  { self with config := { self.config with capacities :=
      { self.config.capacities with
        max_borrowed_responses_per_pending_response := value } } }

/-- The enum `ServiceBuilderRequestResponseType`
(service_builder_request_response.rs lines 28-48): an Ipc or a Local
crate-side builder. -/
inductive ServiceBuilderRequestResponseType
  | Ipc (v : InnerBuilder)
  | Local (v : InnerBuilder)
  deriving DecidableEq, Repr

/-- The pyclass `ServiceBuilderRequestResponse`
(service_builder_request_response.rs line 52): a one-field struct around the
enum. -/
structure ServiceBuilderRequestResponse where
  builder : ServiceBuilderRequestResponseType
  deriving DecidableEq, Repr

/-- The service kind of a builder: which enum variant it holds. -/
def ServiceBuilderRequestResponse.kind
    (self : ServiceBuilderRequestResponse) : ServiceKind :=
  match self.builder with
  | ServiceBuilderRequestResponseType.Ipc _ => ServiceKind.Ipc
  | ServiceBuilderRequestResponseType.Local _ => ServiceKind.Local

/-- The crate-side builder a wrapper holds, whichever the variant. -/
def ServiceBuilderRequestResponse.inner
    (self : ServiceBuilderRequestResponse) : InnerBuilder :=
  match self.builder with
  | ServiceBuilderRequestResponseType.Ipc v => v
  | ServiceBuilderRequestResponseType.Local v => v

/-! ## The configuration methods of the pyclass

Each mirrors the Rust pattern (service_builder_request_response.rs): match
on the variant, clone the crate-side builder, apply the crate-side setter,
and rewrap in the same variant. -/

/-- `ServiceBuilderRequestResponse::request_payload_type_details`
(service_builder_request_response.rs lines 59-72). -/
def ServiceBuilderRequestResponse.request_payload_type_details
    (self : ServiceBuilderRequestResponse) (value : TypeDetail) :
    ServiceBuilderRequestResponse :=
  match self.builder with
  | ServiceBuilderRequestResponseType.Ipc v =>
    let this := v
    let this := InnerBuilder.__internal_set_request_payload_type_details this value
    ServiceBuilderRequestResponse.mk
      (ServiceBuilderRequestResponseType.Ipc this)
  | ServiceBuilderRequestResponseType.Local v =>
    let this := v
    let this := InnerBuilder.__internal_set_request_payload_type_details this value
    ServiceBuilderRequestResponse.mk
      (ServiceBuilderRequestResponseType.Local this)

/-- `ServiceBuilderRequestResponse::request_header_type_details`
(service_builder_request_response.rs lines 76-89). -/
def ServiceBuilderRequestResponse.request_header_type_details
    (self : ServiceBuilderRequestResponse) (value : TypeDetail) :
    ServiceBuilderRequestResponse :=
  match self.builder with
  | ServiceBuilderRequestResponseType.Ipc v =>
    let this := v
    let this := InnerBuilder.__internal_set_request_header_type_details this value
    ServiceBuilderRequestResponse.mk
      (ServiceBuilderRequestResponseType.Ipc this)
  | ServiceBuilderRequestResponseType.Local v =>
    let this := v
    let this := InnerBuilder.__internal_set_request_header_type_details this value
    ServiceBuilderRequestResponse.mk
      (ServiceBuilderRequestResponseType.Local this)

/-- `ServiceBuilderRequestResponse::response_payload_type_details`
(service_builder_request_response.rs lines 94-107). -/
def ServiceBuilderRequestResponse.response_payload_type_details
    (self : ServiceBuilderRequestResponse) (value : TypeDetail) :
    ServiceBuilderRequestResponse :=
  match self.builder with
  | ServiceBuilderRequestResponseType.Ipc v =>
    let this := v
    let this := InnerBuilder.__internal_set_response_payload_type_details this value
    ServiceBuilderRequestResponse.mk
      (ServiceBuilderRequestResponseType.Ipc this)
  | ServiceBuilderRequestResponseType.Local v =>
    let this := v
    let this := InnerBuilder.__internal_set_response_payload_type_details this value
    ServiceBuilderRequestResponse.mk
      (ServiceBuilderRequestResponseType.Local this)

/-- `ServiceBuilderRequestResponse::response_header_type_details`
(service_builder_request_response.rs lines 111-124). -/
def ServiceBuilderRequestResponse.response_header_type_details
    (self : ServiceBuilderRequestResponse) (value : TypeDetail) :
    ServiceBuilderRequestResponse :=
  match self.builder with
  | ServiceBuilderRequestResponseType.Ipc v =>
    let this := v
    let this := InnerBuilder.__internal_set_response_header_type_details this value
    ServiceBuilderRequestResponse.mk
      (ServiceBuilderRequestResponseType.Ipc this)
  | ServiceBuilderRequestResponseType.Local v =>
    let this := v
    let this := InnerBuilder.__internal_set_response_header_type_details this value
    ServiceBuilderRequestResponse.mk
      (ServiceBuilderRequestResponseType.Local this)

/-- `ServiceBuilderRequestResponse::request_payload_alignment`
(service_builder_request_response.rs lines 129-142). -/
def ServiceBuilderRequestResponse.request_payload_alignment
    (self : ServiceBuilderRequestResponse) (value : Nat) :
    ServiceBuilderRequestResponse :=
  match self.builder with
  | ServiceBuilderRequestResponseType.Ipc v =>
    let this := v
    let this := InnerBuilder.request_payload_alignment this value
    ServiceBuilderRequestResponse.mk
      (ServiceBuilderRequestResponseType.Ipc this)
  | ServiceBuilderRequestResponseType.Local v =>
    let this := v
    let this := InnerBuilder.request_payload_alignment this value
    ServiceBuilderRequestResponse.mk
      (ServiceBuilderRequestResponseType.Local this)

/-- `ServiceBuilderRequestResponse::response_payload_alignment`
(service_builder_request_response.rs lines 147-160). -/
def ServiceBuilderRequestResponse.response_payload_alignment
    (self : ServiceBuilderRequestResponse) (value : Nat) :
    ServiceBuilderRequestResponse :=
  match self.builder with
  | ServiceBuilderRequestResponseType.Ipc v =>
    let this := v
    let this := InnerBuilder.response_payload_alignment this value
    ServiceBuilderRequestResponse.mk
      (ServiceBuilderRequestResponseType.Ipc this)
  | ServiceBuilderRequestResponseType.Local v =>
    let this := v
    let this := InnerBuilder.response_payload_alignment this value
    ServiceBuilderRequestResponse.mk
      (ServiceBuilderRequestResponseType.Local this)

/-- `ServiceBuilderRequestResponse::enable_safe_overflow_for_requests`
(service_builder_request_response.rs lines 165-178). -/
def ServiceBuilderRequestResponse.enable_safe_overflow_for_requests
    (self : ServiceBuilderRequestResponse) (value : Bool) :
    ServiceBuilderRequestResponse :=
  match self.builder with
  | ServiceBuilderRequestResponseType.Ipc v =>
    let this := v
    let this := InnerBuilder.enable_safe_overflow_for_requests this value
    ServiceBuilderRequestResponse.mk
      (ServiceBuilderRequestResponseType.Ipc this)
  | ServiceBuilderRequestResponseType.Local v =>
    let this := v
    let this := InnerBuilder.enable_safe_overflow_for_requests this value
    ServiceBuilderRequestResponse.mk
      (ServiceBuilderRequestResponseType.Local this)

/-- `ServiceBuilderRequestResponse::enable_safe_overflow_for_responses`
(service_builder_request_response.rs lines 183-196). -/
def ServiceBuilderRequestResponse.enable_safe_overflow_for_responses
    (self : ServiceBuilderRequestResponse) (value : Bool) :
    ServiceBuilderRequestResponse :=
  match self.builder with
  | ServiceBuilderRequestResponseType.Ipc v =>
    let this := v
    let this := InnerBuilder.enable_safe_overflow_for_responses this value
    ServiceBuilderRequestResponse.mk
      (ServiceBuilderRequestResponseType.Ipc this)
  | ServiceBuilderRequestResponseType.Local v =>
    let this := v
    let this := InnerBuilder.enable_safe_overflow_for_responses this value
    ServiceBuilderRequestResponse.mk
      (ServiceBuilderRequestResponseType.Local this)

/-- `ServiceBuilderRequestResponse::enable_fire_and_forget_requests`
(service_builder_request_response.rs lines 200-213). -/
def ServiceBuilderRequestResponse.enable_fire_and_forget_requests
    (self : ServiceBuilderRequestResponse) (value : Bool) :
    ServiceBuilderRequestResponse :=
  match self.builder with
  | ServiceBuilderRequestResponseType.Ipc v =>
    let this := v
    let this := InnerBuilder.enable_fire_and_forget_requests this value
    ServiceBuilderRequestResponse.mk
      (ServiceBuilderRequestResponseType.Ipc this)
  | ServiceBuilderRequestResponseType.Local v =>
    let this := v
    let this := InnerBuilder.enable_fire_and_forget_requests this value
    ServiceBuilderRequestResponse.mk
      (ServiceBuilderRequestResponseType.Local this)

/-- `ServiceBuilderRequestResponse::max_active_requests_per_client`
(service_builder_request_response.rs lines 218-231). -/
def ServiceBuilderRequestResponse.max_active_requests_per_client
    (self : ServiceBuilderRequestResponse) (value : Nat) :
    ServiceBuilderRequestResponse :=
  match self.builder with
  | ServiceBuilderRequestResponseType.Ipc v =>
    let this := v
    let this := InnerBuilder.max_active_requests_per_client this value
    ServiceBuilderRequestResponse.mk
      (ServiceBuilderRequestResponseType.Ipc this)
  | ServiceBuilderRequestResponseType.Local v =>
    let this := v
    let this := InnerBuilder.max_active_requests_per_client this value
    ServiceBuilderRequestResponse.mk
      (ServiceBuilderRequestResponseType.Local this)

/-- `ServiceBuilderRequestResponse::max_loaned_requests`
(service_builder_request_response.rs lines 235-248). -/
def ServiceBuilderRequestResponse.max_loaned_requests
    (self : ServiceBuilderRequestResponse) (value : Nat) :
    ServiceBuilderRequestResponse :=
  match self.builder with
  | ServiceBuilderRequestResponseType.Ipc v =>
    let this := v
    let this := InnerBuilder.max_loaned_requests this value
    ServiceBuilderRequestResponse.mk
      (ServiceBuilderRequestResponseType.Ipc this)
  | ServiceBuilderRequestResponseType.Local v =>
    let this := v
    let this := InnerBuilder.max_loaned_requests this value
    ServiceBuilderRequestResponse.mk
      (ServiceBuilderRequestResponseType.Local this)

/-- `ServiceBuilderRequestResponse::max_response_buffer_size`
(service_builder_request_response.rs lines 252-265). -/
def ServiceBuilderRequestResponse.max_response_buffer_size
    (self : ServiceBuilderRequestResponse) (value : Nat) :
    ServiceBuilderRequestResponse :=
  match self.builder with
  | ServiceBuilderRequestResponseType.Ipc v =>
    let this := v
    let this := InnerBuilder.max_response_buffer_size this value
    ServiceBuilderRequestResponse.mk
      (ServiceBuilderRequestResponseType.Ipc this)
  | ServiceBuilderRequestResponseType.Local v =>
    let this := v
    let this := InnerBuilder.max_response_buffer_size this value
    ServiceBuilderRequestResponse.mk
      (ServiceBuilderRequestResponseType.Local this)

/-- `ServiceBuilderRequestResponse::max_servers`
(service_builder_request_response.rs lines 270-283). -/
def ServiceBuilderRequestResponse.max_servers
    (self : ServiceBuilderRequestResponse) (value : Nat) :
    ServiceBuilderRequestResponse :=
  match self.builder with
  | ServiceBuilderRequestResponseType.Ipc v =>
    let this := v
    let this := InnerBuilder.max_servers this value
    ServiceBuilderRequestResponse.mk
      (ServiceBuilderRequestResponseType.Ipc this)
  | ServiceBuilderRequestResponseType.Local v =>
    let this := v
    let this := InnerBuilder.max_servers this value
    ServiceBuilderRequestResponse.mk
      (ServiceBuilderRequestResponseType.Local this)

/-- `ServiceBuilderRequestResponse::max_clients`
(service_builder_request_response.rs lines 288-301). -/
def ServiceBuilderRequestResponse.max_clients
    (self : ServiceBuilderRequestResponse) (value : Nat) :
    ServiceBuilderRequestResponse :=
  match self.builder with
  | ServiceBuilderRequestResponseType.Ipc v =>
    let this := v
    let this := InnerBuilder.max_clients this value
    ServiceBuilderRequestResponse.mk
      (ServiceBuilderRequestResponseType.Ipc this)
  | ServiceBuilderRequestResponseType.Local v =>
    let this := v
    let this := InnerBuilder.max_clients this value
    ServiceBuilderRequestResponse.mk
      (ServiceBuilderRequestResponseType.Local this)

/-- `ServiceBuilderRequestResponse::max_nodes`
(service_builder_request_response.rs lines 306-319). -/
def ServiceBuilderRequestResponse.max_nodes
    (self : ServiceBuilderRequestResponse) (value : Nat) :
    ServiceBuilderRequestResponse :=
  match self.builder with
  | ServiceBuilderRequestResponseType.Ipc v =>
    let this := v
    let this := InnerBuilder.max_nodes this value
    ServiceBuilderRequestResponse.mk
      (ServiceBuilderRequestResponseType.Ipc this)
  | ServiceBuilderRequestResponseType.Local v =>
    let this := v
    let this := InnerBuilder.max_nodes this value
    ServiceBuilderRequestResponse.mk
      (ServiceBuilderRequestResponseType.Local this)

/-- `ServiceBuilderRequestResponse::max_borrowed_responses_per_pending_response`
(service_builder_request_response.rs lines 324-337). -/
def ServiceBuilderRequestResponse.max_borrowed_responses_per_pending_response
    (self : ServiceBuilderRequestResponse) (value : Nat) :
    ServiceBuilderRequestResponse :=
  match self.builder with
  | ServiceBuilderRequestResponseType.Ipc v =>
    let this := v
    let this := InnerBuilder.max_borrowed_responses_per_pending_response this value
    ServiceBuilderRequestResponse.mk
      (ServiceBuilderRequestResponseType.Ipc this)
  | ServiceBuilderRequestResponseType.Local v =>
    let this := v
    let this := InnerBuilder.max_borrowed_responses_per_pending_response this value
    ServiceBuilderRequestResponse.mk
      (ServiceBuilderRequestResponseType.Local this)

/-! ## Terminal operations

The terminal operations wrap the registry protocol: they tag the resulting
descriptor with the builder's service kind and translate each failure into
the operation's specific Python error class
(service_builder_request_response.rs lines 339-504). The shared registry,
ambient shared memory in the real system, is passed and returned
explicitly. -/

/-- The enum `PortFactoryRequestResponseType`: the resulting factory tagged
Ipc or Local (mirrored from its construction sites in
service_builder_request_response.rs). -/
inductive PortFactoryRequestResponseType
  | Ipc (v : ServiceDescriptor)
  | Local (v : ServiceDescriptor)
  deriving DecidableEq, Repr

/-- The pyclass `PortFactoryRequestResponse`: a handle around the tagged
factory (spec section 3, PortFactory: descriptor reference plus
service-kind tag). -/
structure PortFactoryRequestResponse where
  factory : PortFactoryRequestResponseType
  deriving DecidableEq, Repr

/-- The service kind a port factory is tagged with. -/
def PortFactoryRequestResponse.kind
    (self : PortFactoryRequestResponse) : ServiceKind :=
  match self.factory with
  | PortFactoryRequestResponseType.Ipc _ => ServiceKind.Ipc
  | PortFactoryRequestResponseType.Local _ => ServiceKind.Local

/-- The descriptor a port factory references, whichever the variant. -/
def PortFactoryRequestResponse.descriptor
    (self : PortFactoryRequestResponse) : ServiceDescriptor :=
  match self.factory with
  | PortFactoryRequestResponseType.Ipc v => v
  | PortFactoryRequestResponseType.Local v => v

/-- The `AttributeSpecifier` passed to `create_with_attributes`: the
attribute set defined on the created service (spec section 4.2). -/
structure AttributeSpecifier where
  attrs : AttributeSet
  deriving DecidableEq, Repr

/-- The three Python error classes raised by the terminal operations
(crate::error in the sources): each carries the Debug-formatted message of
the underlying registry error. -/
inductive PyErr
  | RequestResponseCreateError (msg : String)
  | RequestResponseOpenError (msg : String)
  | RequestResponseOpenOrCreateError (msg : String)
  deriving DecidableEq, Repr

/-- The Debug formatting of a create failure, as interpolated by the Rust
sources into the raised error's message. -/
def CreateError.debugFormat : CreateError → String
  | CreateError.AlreadyExists => "AlreadyExists"

/-- The Debug formatting of an open failure. -/
def OpenError.debugFormat : OpenError → String
  | OpenError.DoesNotExist => "DoesNotExist"
  | OpenError.IncompatibleTypes => "IncompatibleTypes"
  | OpenError.IncompatibleMessagingPattern => "IncompatibleMessagingPattern"
  | OpenError.InsufficientCapacity => "InsufficientCapacity"
  | OpenError.IncompatibleAttributes => "IncompatibleAttributes"

/-- The Debug formatting of an open-or-create failure. -/
def OpenOrCreateError.debugFormat : OpenOrCreateError → String
  | OpenOrCreateError.OpenFailed e => "OpenFailed(" ++ e.debugFormat ++ ")"
  | OpenOrCreateError.CreateFailed e => "CreateFailed(" ++ e.debugFormat ++ ")"
  | OpenOrCreateError.RetriesExhausted => "RetriesExhausted"

/-- `ServiceBuilderRequestResponse::create`
(service_builder_request_response.rs lines 455-476): delegate to the
registry's create with no attributes, tag the factory with the builder's
variant, and raise `RequestResponseCreateError` on failure. -/
def ServiceBuilderRequestResponse.create
    (self : ServiceBuilderRequestResponse) (r : Registry) :
    Registry × Except PyErr PortFactoryRequestResponse :=
  match self.builder with
  | ServiceBuilderRequestResponseType.Ipc v =>
    match ServiceRegistry.create r v.service_name v.config [] with
    | (r1, Except.ok d) =>
      (r1, Except.ok ⟨PortFactoryRequestResponseType.Ipc d⟩)
    | (r1, Except.error e) =>
      (r1, Except.error (PyErr.RequestResponseCreateError e.debugFormat))
  | ServiceBuilderRequestResponseType.Local v =>
    match ServiceRegistry.create r v.service_name v.config [] with
    | (r1, Except.ok d) =>
      (r1, Except.ok ⟨PortFactoryRequestResponseType.Local d⟩)
    | (r1, Except.error e) =>
      (r1, Except.error (PyErr.RequestResponseCreateError e.debugFormat))

/-- `ServiceBuilderRequestResponse::create_with_attributes`
(service_builder_request_response.rs lines 480-504): as `create`, defining
the supplied attributes on the created service. -/
def ServiceBuilderRequestResponse.create_with_attributes
    (self : ServiceBuilderRequestResponse) (attributes : AttributeSpecifier)
    (r : Registry) : Registry × Except PyErr PortFactoryRequestResponse :=
  match self.builder with
  | ServiceBuilderRequestResponseType.Ipc v =>
    match ServiceRegistry.create r v.service_name v.config attributes.attrs with
    | (r1, Except.ok d) =>
      (r1, Except.ok ⟨PortFactoryRequestResponseType.Ipc d⟩)
    | (r1, Except.error e) =>
      (r1, Except.error (PyErr.RequestResponseCreateError e.debugFormat))
  | ServiceBuilderRequestResponseType.Local v =>
    match ServiceRegistry.create r v.service_name v.config attributes.attrs with
    | (r1, Except.ok d) =>
      (r1, Except.ok ⟨PortFactoryRequestResponseType.Local d⟩)
    | (r1, Except.error e) =>
      (r1, Except.error (PyErr.RequestResponseCreateError e.debugFormat))

/-- `ServiceBuilderRequestResponse::open`
(service_builder_request_response.rs lines 401-422): delegate to the
registry's open with no attribute requirements, tag the factory with the
builder's variant, and raise `RequestResponseOpenError` on failure. -/
def ServiceBuilderRequestResponse.openService
    (self : ServiceBuilderRequestResponse) (r : Registry) :
    Registry × Except PyErr PortFactoryRequestResponse :=
  match self.builder with
  | ServiceBuilderRequestResponseType.Ipc v =>
    match ServiceRegistry.openService r v.service_name v.config emptyVerifier with
    | (r1, Except.ok d) =>
      (r1, Except.ok ⟨PortFactoryRequestResponseType.Ipc d⟩)
    | (r1, Except.error e) =>
      (r1, Except.error (PyErr.RequestResponseOpenError e.debugFormat))
  | ServiceBuilderRequestResponseType.Local v =>
    match ServiceRegistry.openService r v.service_name v.config emptyVerifier with
    | (r1, Except.ok d) =>
      (r1, Except.ok ⟨PortFactoryRequestResponseType.Local d⟩)
    | (r1, Except.error e) =>
      (r1, Except.error (PyErr.RequestResponseOpenError e.debugFormat))

/-- `ServiceBuilderRequestResponse::open_with_attributes`
(service_builder_request_response.rs lines 427-451): as `open`, verifying
the supplied attribute requirements against the existing service. -/
def ServiceBuilderRequestResponse.open_with_attributes
    (self : ServiceBuilderRequestResponse) (verifier : AttributeVerifier)
    (r : Registry) : Registry × Except PyErr PortFactoryRequestResponse :=
  match self.builder with
  | ServiceBuilderRequestResponseType.Ipc v =>
    match ServiceRegistry.openService r v.service_name v.config verifier with
    | (r1, Except.ok d) =>
      (r1, Except.ok ⟨PortFactoryRequestResponseType.Ipc d⟩)
    | (r1, Except.error e) =>
      (r1, Except.error (PyErr.RequestResponseOpenError e.debugFormat))
  | ServiceBuilderRequestResponseType.Local v =>
    match ServiceRegistry.openService r v.service_name v.config verifier with
    | (r1, Except.ok d) =>
      (r1, Except.ok ⟨PortFactoryRequestResponseType.Local d⟩)
    | (r1, Except.error e) =>
      (r1, Except.error (PyErr.RequestResponseOpenError e.debugFormat))

/-- `ServiceBuilderRequestResponse::open_or_create`
(service_builder_request_response.rs lines 341-360): delegate to the
registry's race-resolving open-or-create with no attributes, tag the
factory with the builder's variant, and raise
`RequestResponseOpenOrCreateError` on failure. -/
def ServiceBuilderRequestResponse.open_or_create
    (self : ServiceBuilderRequestResponse) (r : Registry) :
    Registry × Except PyErr PortFactoryRequestResponse :=
  match self.builder with
  | ServiceBuilderRequestResponseType.Ipc v =>
    match ServiceRegistry.open_or_create ⟨v.service_name, v.config, [], emptyVerifier⟩ r with
    | (r1, Except.ok d) =>
      (r1, Except.ok ⟨PortFactoryRequestResponseType.Ipc d⟩)
    | (r1, Except.error e) =>
      (r1, Except.error (PyErr.RequestResponseOpenOrCreateError e.debugFormat))
  | ServiceBuilderRequestResponseType.Local v =>
    match ServiceRegistry.open_or_create ⟨v.service_name, v.config, [], emptyVerifier⟩ r with
    | (r1, Except.ok d) =>
      (r1, Except.ok ⟨PortFactoryRequestResponseType.Local d⟩)
    | (r1, Except.error e) =>
      (r1, Except.error (PyErr.RequestResponseOpenOrCreateError e.debugFormat))

/-- `ServiceBuilderRequestResponse::open_or_create_with_attributes`
(service_builder_request_response.rs lines 369-397): as `open_or_create`;
the verifier's requirements are checked when opening and its required
attribute pairs are defined on the service when creating. -/
def ServiceBuilderRequestResponse.open_or_create_with_attributes
    (self : ServiceBuilderRequestResponse) (verifier : AttributeVerifier)
    (r : Registry) : Registry × Except PyErr PortFactoryRequestResponse :=
  match self.builder with
  | ServiceBuilderRequestResponseType.Ipc v =>
    match ServiceRegistry.open_or_create
        ⟨v.service_name, v.config, verifier.required_attributes, verifier⟩ r with
    | (r1, Except.ok d) =>
      (r1, Except.ok ⟨PortFactoryRequestResponseType.Ipc d⟩)
    | (r1, Except.error e) =>
      (r1, Except.error (PyErr.RequestResponseOpenOrCreateError e.debugFormat))
  | ServiceBuilderRequestResponseType.Local v =>
    match ServiceRegistry.open_or_create
        ⟨v.service_name, v.config, verifier.required_attributes, verifier⟩ r with
    | (r1, Except.ok d) =>
      (r1, Except.ok ⟨PortFactoryRequestResponseType.Local d⟩)
    | (r1, Except.error e) =>
      (r1, Except.error (PyErr.RequestResponseOpenOrCreateError e.debugFormat))

deriving instance DecidableEq for Except

deriving instance DecidableEq for OpenOrCreateState

/-! ## Sample values for the concrete witnesses -/

/-- A sample type detail. -/
def sampleType : TypeDetail := ⟨8, 4, false⟩

/-- A second, different sample type detail. -/
def sampleTypeB : TypeDetail := ⟨16, 8, false⟩

/-- Sample messaging-pattern flags. -/
def sampleSettings : MessagingPatternSettings := ⟨true, true, false⟩

/-- A sample capacity bundle whose `max_clients` is the argument. -/
def capsWithClients (n : Nat) : CapacityConfig := ⟨1, 1, 1, 1, n, 1, 1⟩

/-- A sample configuration whose `max_clients` is the argument. -/
def cfgWithClients (n : Nat) : BuilderConfig :=
  ⟨sampleType, sampleType, sampleType, sampleType, sampleSettings,
    capsWithClients n⟩

/-- A sample configuration. -/
def sampleConfig : BuilderConfig := cfgWithClients 4

/-- A sample configuration with a different request payload contract. -/
def sampleConfigB : BuilderConfig :=
  ⟨sampleTypeB, sampleType, sampleType, sampleType, sampleSettings,
    capsWithClients 4⟩

/-- An Ipc builder for the name `s` carrying the given configuration. -/
def ipcBuilder (cfg : BuilderConfig) : ServiceBuilderRequestResponse :=
  ⟨ServiceBuilderRequestResponseType.Ipc ⟨"s", cfg⟩⟩

/-- A Local builder for the name `s` carrying the given configuration. -/
def localBuilder (cfg : BuilderConfig) : ServiceBuilderRequestResponse :=
  ⟨ServiceBuilderRequestResponseType.Local ⟨"s", cfg⟩⟩

/-- A registry holding one service named `s` with the given configuration
and attributes. -/
def regWith (cfg : BuilderConfig) (attrs : AttributeSet) : Registry :=
  [("s", ⟨cfg, attrs, 1⟩)]

/-! ## Helper lemmas -/

/-- A configuration's type contracts match themselves. -/
theorem typeContractsMatch_self (c : BuilderConfig) :
    typeContractsMatch c c = true := by
  simp [typeContractsMatch]

/-- A configuration's flags match themselves. -/
theorem settingsMatch_self (c : BuilderConfig) :
    settingsMatch c c = true := by
  simp [settingsMatch]

/-- A capacity bundle satisfies itself as a minimum. -/
theorem capacitiesAtLeast_self (c : CapacityConfig) :
    capacitiesAtLeast c c = true := by
  simp [capacitiesAtLeast]

/-- The empty verifier is satisfied by every attribute set. -/
theorem verifierSatisfied_empty (s : AttributeSet) :
    verifierSatisfied s emptyVerifier = true := by
  simp [verifierSatisfied, emptyVerifier]

/-- A finished participant stays finished: `done` absorbs any number of
steps. -/
theorem runProc_done (k : Nat) (p : ProcParams)
    (res : Except OpenOrCreateError ServiceDescriptor) (r : Registry) :
    runProc k p (OpenOrCreateState.done res) r = (OpenOrCreateState.done res, r) := by
  induction k with
  | zero => rfl
  | succ n ih => simpa [runProc, procStep] using ih

/-- `List.all` is invariant under permutation of the list. -/
theorem all_eq_of_perm {α : Type} {l l' : List α} (f : α → Bool)
    (h : List.Perm l l') : l.all f = l'.all f := by
  induction h with
  | nil => rfl
  | cons x _ ih => simp [List.all_cons, ih]
  | swap x y l =>
    simp only [List.all_cons, ← Bool.and_assoc]
    rw [Bool.and_comm (f y) (f x)]
  | trans _ _ ih1 ih2 => rw [ih1, ih2]

/-! ## Claims -/

/-- C9: the two conversions between the Python-facing `AllocationStrategy`
enum and iceoryx2's `AllocationStrategy` are mutually inverse bijections -
converting any value of either enum to the other representation and back
yields the original value. -/
theorem allocation_strategy_conversions_inverse :
    (∀ a : PreludeAllocationStrategy,
      PreludeAllocationStrategy.from_py (AllocationStrategy.from_prelude a) = a) ∧
    (∀ b : AllocationStrategy,
      AllocationStrategy.from_prelude (PreludeAllocationStrategy.from_py b) = b) :=
  ⟨fun a => by cases a <;> rfl, fun b => by cases b <;> rfl⟩

/-- C10: equality of `UniqueClientId` wrappers agrees with equality of the
wrapped identifier, and equal wrappers report the same `value()` (the raw
u128 of the id). -/
theorem unique_client_id_eq_agrees (a b : UniqueClientId) :
    (UniqueClientId.eq a b = true ↔ a.id = b.id) ∧
    (UniqueClientId.eq a b = true → a.value = b.value) := by
  constructor
  · simp [UniqueClientId.eq]
  · intro h
    have hid : a.id = b.id := by simpa [UniqueClientId.eq] using h
    simp [UniqueClientId.value, hid]

/-- Witness for C10 at a concrete identifier value. -/
theorem unique_client_id_eq_agrees_witness :
    (UniqueClientId.eq ⟨⟨77⟩⟩ ⟨⟨77⟩⟩ = true ↔
      (⟨⟨77⟩⟩ : UniqueClientId).id = (⟨⟨77⟩⟩ : UniqueClientId).id) ∧
    UniqueClientId.value ⟨⟨77⟩⟩ = UniqueClientId.value ⟨⟨77⟩⟩ :=
  ⟨(unique_client_id_eq_agrees ⟨⟨77⟩⟩ ⟨⟨77⟩⟩).1,
   (unique_client_id_eq_agrees ⟨⟨77⟩⟩ ⟨⟨77⟩⟩).2 (by decide)⟩

/-- C6: every configuration method of the request-response service builder
is a pure configuration transformer: it returns a new builder value whose
accumulated configuration is exactly the old one with the targeted entry
updated, preserving the service kind, the service name and every other
configuration entry. The methods are total functions of the builder value
(they cannot fail), and in this pure embedding - faithful to the Rust
signatures, which take `&self` and return a fresh `Self` built from a
clone - the original builder value is by construction left unchanged and
usable. -/
theorem builder_configuration_methods_pure :
    (∀ (b : ServiceBuilderRequestResponse) (v : TypeDetail),
      (ServiceBuilderRequestResponse.request_payload_type_details b v).kind = b.kind ∧
      (ServiceBuilderRequestResponse.request_payload_type_details b v).inner.service_name =
        b.inner.service_name ∧
      (ServiceBuilderRequestResponse.request_payload_type_details b v).inner.config =
        { b.inner.config with request_payload := v }) ∧
    (∀ (b : ServiceBuilderRequestResponse) (v : TypeDetail),
      (ServiceBuilderRequestResponse.request_header_type_details b v).kind = b.kind ∧
      (ServiceBuilderRequestResponse.request_header_type_details b v).inner.service_name =
        b.inner.service_name ∧
      (ServiceBuilderRequestResponse.request_header_type_details b v).inner.config =
        { b.inner.config with request_header := v }) ∧
    (∀ (b : ServiceBuilderRequestResponse) (v : TypeDetail),
      (ServiceBuilderRequestResponse.response_payload_type_details b v).kind = b.kind ∧
      (ServiceBuilderRequestResponse.response_payload_type_details b v).inner.service_name =
        b.inner.service_name ∧
      (ServiceBuilderRequestResponse.response_payload_type_details b v).inner.config =
        { b.inner.config with response_payload := v }) ∧
    (∀ (b : ServiceBuilderRequestResponse) (v : TypeDetail),
      (ServiceBuilderRequestResponse.response_header_type_details b v).kind = b.kind ∧
      (ServiceBuilderRequestResponse.response_header_type_details b v).inner.service_name =
        b.inner.service_name ∧
      (ServiceBuilderRequestResponse.response_header_type_details b v).inner.config =
        { b.inner.config with response_header := v }) ∧
    (∀ (b : ServiceBuilderRequestResponse) (v : Nat),
      (ServiceBuilderRequestResponse.request_payload_alignment b v).kind = b.kind ∧
      (ServiceBuilderRequestResponse.request_payload_alignment b v).inner.service_name =
        b.inner.service_name ∧
      (ServiceBuilderRequestResponse.request_payload_alignment b v).inner.config =
        { b.inner.config with request_payload := { b.inner.config.request_payload with alignment := max b.inner.config.request_payload.alignment v } }) ∧
    (∀ (b : ServiceBuilderRequestResponse) (v : Nat),
      (ServiceBuilderRequestResponse.response_payload_alignment b v).kind = b.kind ∧
      (ServiceBuilderRequestResponse.response_payload_alignment b v).inner.service_name =
        b.inner.service_name ∧
      (ServiceBuilderRequestResponse.response_payload_alignment b v).inner.config =
        { b.inner.config with response_payload := { b.inner.config.response_payload with alignment := max b.inner.config.response_payload.alignment v } }) ∧
    (∀ (b : ServiceBuilderRequestResponse) (v : Bool),
      (ServiceBuilderRequestResponse.enable_safe_overflow_for_requests b v).kind = b.kind ∧
      (ServiceBuilderRequestResponse.enable_safe_overflow_for_requests b v).inner.service_name =
        b.inner.service_name ∧
      (ServiceBuilderRequestResponse.enable_safe_overflow_for_requests b v).inner.config =
        { b.inner.config with settings := { b.inner.config.settings with safe_overflow_for_requests := v } }) ∧
    (∀ (b : ServiceBuilderRequestResponse) (v : Bool),
      (ServiceBuilderRequestResponse.enable_safe_overflow_for_responses b v).kind = b.kind ∧
      (ServiceBuilderRequestResponse.enable_safe_overflow_for_responses b v).inner.service_name =
        b.inner.service_name ∧
      (ServiceBuilderRequestResponse.enable_safe_overflow_for_responses b v).inner.config =
        { b.inner.config with settings := { b.inner.config.settings with safe_overflow_for_responses := v } }) ∧
    (∀ (b : ServiceBuilderRequestResponse) (v : Bool),
      (ServiceBuilderRequestResponse.enable_fire_and_forget_requests b v).kind = b.kind ∧
      (ServiceBuilderRequestResponse.enable_fire_and_forget_requests b v).inner.service_name =
        b.inner.service_name ∧
      (ServiceBuilderRequestResponse.enable_fire_and_forget_requests b v).inner.config =
        { b.inner.config with settings := { b.inner.config.settings with fire_and_forget_requests := v } }) ∧
    (∀ (b : ServiceBuilderRequestResponse) (v : Nat),
      (ServiceBuilderRequestResponse.max_active_requests_per_client b v).kind = b.kind ∧
      (ServiceBuilderRequestResponse.max_active_requests_per_client b v).inner.service_name =
        b.inner.service_name ∧
      (ServiceBuilderRequestResponse.max_active_requests_per_client b v).inner.config =
        { b.inner.config with capacities := { b.inner.config.capacities with max_active_requests_per_client := v } }) ∧
    (∀ (b : ServiceBuilderRequestResponse) (v : Nat),
      (ServiceBuilderRequestResponse.max_loaned_requests b v).kind = b.kind ∧
      (ServiceBuilderRequestResponse.max_loaned_requests b v).inner.service_name =
        b.inner.service_name ∧
      (ServiceBuilderRequestResponse.max_loaned_requests b v).inner.config =
        { b.inner.config with capacities := { b.inner.config.capacities with max_loaned_requests := v } }) ∧
    (∀ (b : ServiceBuilderRequestResponse) (v : Nat),
      (ServiceBuilderRequestResponse.max_response_buffer_size b v).kind = b.kind ∧
      (ServiceBuilderRequestResponse.max_response_buffer_size b v).inner.service_name =
        b.inner.service_name ∧
      (ServiceBuilderRequestResponse.max_response_buffer_size b v).inner.config =
        { b.inner.config with capacities := { b.inner.config.capacities with max_response_buffer_size := v } }) ∧
    (∀ (b : ServiceBuilderRequestResponse) (v : Nat),
      (ServiceBuilderRequestResponse.max_servers b v).kind = b.kind ∧
      (ServiceBuilderRequestResponse.max_servers b v).inner.service_name =
        b.inner.service_name ∧
      (ServiceBuilderRequestResponse.max_servers b v).inner.config =
        { b.inner.config with capacities := { b.inner.config.capacities with max_servers := v } }) ∧
    (∀ (b : ServiceBuilderRequestResponse) (v : Nat),
      (ServiceBuilderRequestResponse.max_clients b v).kind = b.kind ∧
      (ServiceBuilderRequestResponse.max_clients b v).inner.service_name =
        b.inner.service_name ∧
      (ServiceBuilderRequestResponse.max_clients b v).inner.config =
        { b.inner.config with capacities := { b.inner.config.capacities with max_clients := v } }) ∧
    (∀ (b : ServiceBuilderRequestResponse) (v : Nat),
      (ServiceBuilderRequestResponse.max_nodes b v).kind = b.kind ∧
      (ServiceBuilderRequestResponse.max_nodes b v).inner.service_name =
        b.inner.service_name ∧
      (ServiceBuilderRequestResponse.max_nodes b v).inner.config =
        { b.inner.config with capacities := { b.inner.config.capacities with max_nodes := v } }) ∧
    (∀ (b : ServiceBuilderRequestResponse) (v : Nat),
      (ServiceBuilderRequestResponse.max_borrowed_responses_per_pending_response b v).kind = b.kind ∧
      (ServiceBuilderRequestResponse.max_borrowed_responses_per_pending_response b v).inner.service_name =
        b.inner.service_name ∧
      (ServiceBuilderRequestResponse.max_borrowed_responses_per_pending_response b v).inner.config =
        { b.inner.config with capacities := { b.inner.config.capacities with max_borrowed_responses_per_pending_response := v } }) := by
  refine ⟨?_, ?_, ?_, ?_, ?_, ?_, ?_, ?_, ?_, ?_, ?_, ?_, ?_, ?_, ?_, ?_⟩ <;>
    (intro b v; rcases b with ⟨bi | bi⟩ <;> exact ⟨rfl, rfl, rfl⟩)

/-- C7: every terminal operation of the builder - create, open,
open_or_create, and their attribute variants - returns a port factory
tagged with the same service kind (Ipc or Local) the builder was
constructed for. -/
theorem terminal_operations_preserve_service_kind :
    (∀ (b : ServiceBuilderRequestResponse) (r r1 : Registry)
       (f : PortFactoryRequestResponse),
      b.create r = (r1, Except.ok f) → f.kind = b.kind) ∧
    (∀ (b : ServiceBuilderRequestResponse) (a : AttributeSpecifier)
       (r r1 : Registry) (f : PortFactoryRequestResponse),
      b.create_with_attributes a r = (r1, Except.ok f) → f.kind = b.kind) ∧
    (∀ (b : ServiceBuilderRequestResponse) (r r1 : Registry)
       (f : PortFactoryRequestResponse),
      b.openService r = (r1, Except.ok f) → f.kind = b.kind) ∧
    (∀ (b : ServiceBuilderRequestResponse) (ver : AttributeVerifier)
       (r r1 : Registry) (f : PortFactoryRequestResponse),
      b.open_with_attributes ver r = (r1, Except.ok f) → f.kind = b.kind) ∧
    (∀ (b : ServiceBuilderRequestResponse) (r r1 : Registry)
       (f : PortFactoryRequestResponse),
      b.open_or_create r = (r1, Except.ok f) → f.kind = b.kind) ∧
    (∀ (b : ServiceBuilderRequestResponse) (ver : AttributeVerifier)
       (r r1 : Registry) (f : PortFactoryRequestResponse),
      b.open_or_create_with_attributes ver r = (r1, Except.ok f) →
        f.kind = b.kind) := by
  refine ⟨?_, ?_, ?_, ?_, ?_, ?_⟩
  · intro b r r1 f h
    rcases b with ⟨bi | bi⟩ <;>
      (simp only [ServiceBuilderRequestResponse.create] at h
       split at h <;> simp_all <;>
         (obtain ⟨h1, h2⟩ := h; subst h2; rfl))
  · intro b a r r1 f h
    rcases b with ⟨bi | bi⟩ <;>
      (simp only [ServiceBuilderRequestResponse.create_with_attributes] at h
       split at h <;> simp_all <;>
         (obtain ⟨h1, h2⟩ := h; subst h2; rfl))
  · intro b r r1 f h
    rcases b with ⟨bi | bi⟩ <;>
      (simp only [ServiceBuilderRequestResponse.openService] at h
       split at h <;> simp_all <;>
         (obtain ⟨h1, h2⟩ := h; subst h2; rfl))
  · intro b ver r r1 f h
    rcases b with ⟨bi | bi⟩ <;>
      (simp only [ServiceBuilderRequestResponse.open_with_attributes] at h
       split at h <;> simp_all <;>
         (obtain ⟨h1, h2⟩ := h; subst h2; rfl))
  · intro b r r1 f h
    rcases b with ⟨bi | bi⟩ <;>
      (simp only [ServiceBuilderRequestResponse.open_or_create] at h
       split at h <;> simp_all <;>
         (obtain ⟨h1, h2⟩ := h; subst h2; rfl))
  · intro b ver r r1 f h
    rcases b with ⟨bi | bi⟩ <;>
      (simp only [ServiceBuilderRequestResponse.open_or_create_with_attributes] at h
       split at h <;> simp_all <;>
         (obtain ⟨h1, h2⟩ := h; subst h2; rfl))

/-- Witness for C7: each of the six terminal operations run at concrete
inputs where it succeeds; the resulting factory's kind is the builder's. -/
theorem terminal_operations_preserve_service_kind_witness :
    PortFactoryRequestResponse.kind
        ⟨PortFactoryRequestResponseType.Ipc ⟨sampleConfig, [], 1⟩⟩ =
      (ipcBuilder sampleConfig).kind ∧
    PortFactoryRequestResponse.kind
        ⟨PortFactoryRequestResponseType.Local ⟨sampleConfig, [("env", "prod")], 1⟩⟩ =
      (localBuilder sampleConfig).kind ∧
    PortFactoryRequestResponse.kind
        ⟨PortFactoryRequestResponseType.Ipc ⟨sampleConfig, [], 1⟩⟩ =
      (ipcBuilder sampleConfig).kind ∧
    PortFactoryRequestResponse.kind
        ⟨PortFactoryRequestResponseType.Local ⟨sampleConfig, [("env", "prod")], 1⟩⟩ =
      (localBuilder sampleConfig).kind ∧
    PortFactoryRequestResponse.kind
        ⟨PortFactoryRequestResponseType.Ipc ⟨sampleConfig, [], 1⟩⟩ =
      (ipcBuilder sampleConfig).kind ∧
    PortFactoryRequestResponse.kind
        ⟨PortFactoryRequestResponseType.Local ⟨sampleConfig, [("env", "prod")], 1⟩⟩ =
      (localBuilder sampleConfig).kind :=
  ⟨terminal_operations_preserve_service_kind.1 (ipcBuilder sampleConfig) []
      [("s", ⟨sampleConfig, [], 1⟩)]
      ⟨PortFactoryRequestResponseType.Ipc ⟨sampleConfig, [], 1⟩⟩ (by decide),
   terminal_operations_preserve_service_kind.2.1 (localBuilder sampleConfig)
      ⟨[("env", "prod")]⟩ [] [("s", ⟨sampleConfig, [("env", "prod")], 1⟩)]
      ⟨PortFactoryRequestResponseType.Local ⟨sampleConfig, [("env", "prod")], 1⟩⟩
      (by decide),
   terminal_operations_preserve_service_kind.2.2.1 (ipcBuilder sampleConfig)
      (regWith sampleConfig []) [("s", ⟨sampleConfig, [], 2⟩)]
      ⟨PortFactoryRequestResponseType.Ipc ⟨sampleConfig, [], 1⟩⟩ (by decide),
   terminal_operations_preserve_service_kind.2.2.2.1 (localBuilder sampleConfig)
      ⟨[("env", "prod")], ["env"]⟩ (regWith sampleConfig [("env", "prod")])
      [("s", ⟨sampleConfig, [("env", "prod")], 2⟩)]
      ⟨PortFactoryRequestResponseType.Local ⟨sampleConfig, [("env", "prod")], 1⟩⟩
      (by decide),
   terminal_operations_preserve_service_kind.2.2.2.2.1 (ipcBuilder sampleConfig)
      [] [("s", ⟨sampleConfig, [], 1⟩)]
      ⟨PortFactoryRequestResponseType.Ipc ⟨sampleConfig, [], 1⟩⟩ (by decide),
   terminal_operations_preserve_service_kind.2.2.2.2.2 (localBuilder sampleConfig)
      ⟨[("env", "prod")], []⟩ [] [("s", ⟨sampleConfig, [("env", "prod")], 1⟩)]
      ⟨PortFactoryRequestResponseType.Local ⟨sampleConfig, [("env", "prod")], 1⟩⟩
      (by decide)⟩

/-- C8: every failing terminal operation surfaces the operation's specific,
inspectable error value: the create variants raise
`RequestResponseCreateError`, the open variants raise
`RequestResponseOpenError`, and the open-or-create variants raise
`RequestResponseOpenOrCreateError`. -/
theorem terminal_operations_raise_specific_errors :
    (∀ (b : ServiceBuilderRequestResponse) (r r1 : Registry) (e : PyErr),
      b.create r = (r1, Except.error e) →
        ∃ msg, e = PyErr.RequestResponseCreateError msg) ∧
    (∀ (b : ServiceBuilderRequestResponse) (a : AttributeSpecifier)
       (r r1 : Registry) (e : PyErr),
      b.create_with_attributes a r = (r1, Except.error e) →
        ∃ msg, e = PyErr.RequestResponseCreateError msg) ∧
    (∀ (b : ServiceBuilderRequestResponse) (r r1 : Registry) (e : PyErr),
      b.openService r = (r1, Except.error e) →
        ∃ msg, e = PyErr.RequestResponseOpenError msg) ∧
    (∀ (b : ServiceBuilderRequestResponse) (ver : AttributeVerifier)
       (r r1 : Registry) (e : PyErr),
      b.open_with_attributes ver r = (r1, Except.error e) →
        ∃ msg, e = PyErr.RequestResponseOpenError msg) ∧
    (∀ (b : ServiceBuilderRequestResponse) (r r1 : Registry) (e : PyErr),
      b.open_or_create r = (r1, Except.error e) →
        ∃ msg, e = PyErr.RequestResponseOpenOrCreateError msg) ∧
    (∀ (b : ServiceBuilderRequestResponse) (ver : AttributeVerifier)
       (r r1 : Registry) (e : PyErr),
      b.open_or_create_with_attributes ver r = (r1, Except.error e) →
        ∃ msg, e = PyErr.RequestResponseOpenOrCreateError msg) := by
  refine ⟨?_, ?_, ?_, ?_, ?_, ?_⟩
  · intro b r r1 e h
    rcases b with ⟨bi | bi⟩ <;>
      (simp only [ServiceBuilderRequestResponse.create] at h
       split at h <;> simp_all <;>
         (obtain ⟨h1, h2⟩ := h; subst h2; exact ⟨_, rfl⟩))
  · intro b a r r1 e h
    rcases b with ⟨bi | bi⟩ <;>
      (simp only [ServiceBuilderRequestResponse.create_with_attributes] at h
       split at h <;> simp_all <;>
         (obtain ⟨h1, h2⟩ := h; subst h2; exact ⟨_, rfl⟩))
  · intro b r r1 e h
    rcases b with ⟨bi | bi⟩ <;>
      (simp only [ServiceBuilderRequestResponse.openService] at h
       split at h <;> simp_all <;>
         (obtain ⟨h1, h2⟩ := h; subst h2; exact ⟨_, rfl⟩))
  · intro b ver r r1 e h
    rcases b with ⟨bi | bi⟩ <;>
      (simp only [ServiceBuilderRequestResponse.open_with_attributes] at h
       split at h <;> simp_all <;>
         (obtain ⟨h1, h2⟩ := h; subst h2; exact ⟨_, rfl⟩))
  · intro b r r1 e h
    rcases b with ⟨bi | bi⟩ <;>
      (simp only [ServiceBuilderRequestResponse.open_or_create] at h
       split at h <;> simp_all <;>
         (obtain ⟨h1, h2⟩ := h; subst h2; exact ⟨_, rfl⟩))
  · intro b ver r r1 e h
    rcases b with ⟨bi | bi⟩ <;>
      (simp only [ServiceBuilderRequestResponse.open_or_create_with_attributes] at h
       split at h <;> simp_all <;>
         (obtain ⟨h1, h2⟩ := h; subst h2; exact ⟨_, rfl⟩))

/-- Witness for C8: each of the six terminal operations run at a concrete
input where it fails, its error being the operation's specific class. -/
theorem terminal_operations_raise_specific_errors_witness :
    (∃ msg, PyErr.RequestResponseCreateError "AlreadyExists" =
      PyErr.RequestResponseCreateError msg) ∧
    (∃ msg, PyErr.RequestResponseCreateError "AlreadyExists" =
      PyErr.RequestResponseCreateError msg) ∧
    (∃ msg, PyErr.RequestResponseOpenError "DoesNotExist" =
      PyErr.RequestResponseOpenError msg) ∧
    (∃ msg, PyErr.RequestResponseOpenError "IncompatibleAttributes" =
      PyErr.RequestResponseOpenError msg) ∧
    (∃ msg, PyErr.RequestResponseOpenOrCreateError "OpenFailed(IncompatibleTypes)" =
      PyErr.RequestResponseOpenOrCreateError msg) ∧
    (∃ msg, PyErr.RequestResponseOpenOrCreateError "OpenFailed(IncompatibleTypes)" =
      PyErr.RequestResponseOpenOrCreateError msg) :=
  ⟨terminal_operations_raise_specific_errors.1 (ipcBuilder sampleConfig)
      (regWith sampleConfig []) (regWith sampleConfig [])
      (PyErr.RequestResponseCreateError "AlreadyExists") (by decide),
   terminal_operations_raise_specific_errors.2.1 (localBuilder sampleConfig)
      ⟨[("env", "prod")]⟩ (regWith sampleConfig []) (regWith sampleConfig [])
      (PyErr.RequestResponseCreateError "AlreadyExists") (by decide),
   terminal_operations_raise_specific_errors.2.2.1 (ipcBuilder sampleConfig)
      [] [] (PyErr.RequestResponseOpenError "DoesNotExist") (by decide),
   terminal_operations_raise_specific_errors.2.2.2.1 (localBuilder sampleConfig)
      ⟨[("env", "prod")], []⟩ (regWith sampleConfig []) (regWith sampleConfig [])
      (PyErr.RequestResponseOpenError "IncompatibleAttributes") (by decide),
   terminal_operations_raise_specific_errors.2.2.2.2.1 (ipcBuilder sampleConfig)
      (regWith sampleConfigB []) (regWith sampleConfigB [])
      (PyErr.RequestResponseOpenOrCreateError "OpenFailed(IncompatibleTypes)")
      (by decide),
   terminal_operations_raise_specific_errors.2.2.2.2.2 (localBuilder sampleConfig)
      ⟨[], []⟩ (regWith sampleConfigB []) (regWith sampleConfigB [])
      (PyErr.RequestResponseOpenOrCreateError "OpenFailed(IncompatibleTypes)")
      (by decide)⟩

/-- Step lemma: a successful open finishes the loop with that result. -/
theorem procStep_open_ok (p : ProcParams) (fuel : Nat) (r r1 : Registry)
    (d : ServiceDescriptor)
    (h : ServiceRegistry.openService r p.name p.cfg p.ver = (r1, Except.ok d)) :
    procStep p (OpenOrCreateState.tryOpen fuel) r =
      (OpenOrCreateState.done (Except.ok d), r1) := by
  simp [procStep, h]

/-- Step lemma: an open that finds no service falls through to create. -/
theorem procStep_open_missing (p : ProcParams) (fuel : Nat) (r r1 : Registry)
    (h : ServiceRegistry.openService r p.name p.cfg p.ver =
      (r1, Except.error OpenError.DoesNotExist)) :
    procStep p (OpenOrCreateState.tryOpen fuel) r =
      (OpenOrCreateState.tryCreate fuel, r1) := by
  simp [procStep, h]

/-- Step lemma: any open failure other than `DoesNotExist` is terminal and
passes through. -/
theorem procStep_open_error (p : ProcParams) (fuel : Nat) (r r1 : Registry)
    (e : OpenError) (hne : e ≠ OpenError.DoesNotExist)
    (h : ServiceRegistry.openService r p.name p.cfg p.ver = (r1, Except.error e)) :
    procStep p (OpenOrCreateState.tryOpen fuel) r =
      (OpenOrCreateState.done (Except.error (OpenOrCreateError.OpenFailed e)), r1) := by
  rcases e with _ | _ | _ | _ | _
  · exact absurd rfl hne
  all_goals simp [procStep, h]

/-- Step lemma: a successful create finishes the loop with that result. -/
theorem procStep_create_ok (p : ProcParams) (fuel : Nat) (r r1 : Registry)
    (d : ServiceDescriptor)
    (h : ServiceRegistry.create r p.name p.cfg p.attrs = (r1, Except.ok d)) :
    procStep p (OpenOrCreateState.tryCreate fuel) r =
      (OpenOrCreateState.done (Except.ok d), r1) := by
  simp [procStep, h]

/-- Step lemma: a create lost to a concurrent winner retries the open while
retry budget remains. -/
theorem procStep_create_lost_retries (p : ProcParams) (fuel : Nat)
    (r r1 : Registry)
    (h : ServiceRegistry.create r p.name p.cfg p.attrs =
      (r1, Except.error CreateError.AlreadyExists)) :
    procStep p (OpenOrCreateState.tryCreate (fuel + 1)) r =
      (OpenOrCreateState.tryOpen fuel, r1) := by
  simp [procStep, h]

/-- Step lemma: a create lost with the retry budget spent surfaces
`RetriesExhausted`. -/
theorem procStep_create_lost_exhausted (p : ProcParams) (r r1 : Registry)
    (h : ServiceRegistry.create r p.name p.cfg p.attrs =
      (r1, Except.error CreateError.AlreadyExists)) :
    procStep p (OpenOrCreateState.tryCreate 0) r =
      (OpenOrCreateState.done (Except.error OpenOrCreateError.RetriesExhausted), r1) := by
  simp [procStep, h]

/-- Termination: from a fresh open attempt with retry budget `fuel`, the
loop reaches a `done` state within `2 * fuel + 2` steps, whatever the
registry state at each step - it never loops forever. -/
theorem runProc_tryOpen_reaches_done (p : ProcParams) :
    ∀ (fuel : Nat) (r : Registry), ∃ res r1,
      runProc (2 * fuel + 2) p (OpenOrCreateState.tryOpen fuel) r =
        (OpenOrCreateState.done res, r1) := by
  intro fuel
  induction fuel with
  | zero =>
    intro r
    rcases ho : ServiceRegistry.openService r p.name p.cfg p.ver with ⟨ro, reso⟩
    rcases reso with e | d
    · rcases e with _ | _ | _ | _ | _
      case DoesNotExist =>
        rcases hc : ServiceRegistry.create ro p.name p.cfg p.attrs with ⟨rc, resc⟩
        rcases resc with ce | d2
        · rcases ce
          exact ⟨Except.error OpenOrCreateError.RetriesExhausted, rc, by
            simp only [Nat.mul_zero, Nat.zero_add]
            simp [runProc, procStep, ho, hc, runProc_done]⟩
        · exact ⟨Except.ok d2, rc, by
            simp only [Nat.mul_zero, Nat.zero_add]
            simp [runProc, procStep, ho, hc, runProc_done]⟩
      case IncompatibleTypes =>
        exact ⟨Except.error (OpenOrCreateError.OpenFailed OpenError.IncompatibleTypes),
          ro, by
            simp only [Nat.mul_zero, Nat.zero_add]
            simp [runProc, procStep, ho, runProc_done]⟩
      case IncompatibleMessagingPattern =>
        exact ⟨Except.error
          (OpenOrCreateError.OpenFailed OpenError.IncompatibleMessagingPattern), ro, by
            simp only [Nat.mul_zero, Nat.zero_add]
            simp [runProc, procStep, ho, runProc_done]⟩
      case InsufficientCapacity =>
        exact ⟨Except.error
          (OpenOrCreateError.OpenFailed OpenError.InsufficientCapacity), ro, by
            simp only [Nat.mul_zero, Nat.zero_add]
            simp [runProc, procStep, ho, runProc_done]⟩
      case IncompatibleAttributes =>
        exact ⟨Except.error
          (OpenOrCreateError.OpenFailed OpenError.IncompatibleAttributes), ro, by
            simp only [Nat.mul_zero, Nat.zero_add]
            simp [runProc, procStep, ho, runProc_done]⟩
    · exact ⟨Except.ok d, ro, by
        simp only [Nat.mul_zero, Nat.zero_add]
        simp [runProc, procStep, ho, runProc_done]⟩
  | succ n ih =>
    intro r
    have hb : 2 * (n + 1) + 2 = 2 * n + 2 + 2 := by ring
    rw [hb]
    rcases ho : ServiceRegistry.openService r p.name p.cfg p.ver with ⟨ro, reso⟩
    rcases reso with e | d
    · rcases e with _ | _ | _ | _ | _
      case DoesNotExist =>
        rcases hc : ServiceRegistry.create ro p.name p.cfg p.attrs with ⟨rc, resc⟩
        rcases resc with ce | d2
        · rcases ce
          obtain ⟨res, r1, hrun⟩ := ih rc
          exact ⟨res, r1, by
            simp only [runProc, procStep, ho, hc]
            exact hrun⟩
        · exact ⟨Except.ok d2, rc, by
            simp [runProc, procStep, ho, hc, runProc_done]⟩
      case IncompatibleTypes =>
        exact ⟨Except.error (OpenOrCreateError.OpenFailed OpenError.IncompatibleTypes),
          ro, by simp [runProc, procStep, ho, runProc_done]⟩
      case IncompatibleMessagingPattern =>
        exact ⟨Except.error
          (OpenOrCreateError.OpenFailed OpenError.IncompatibleMessagingPattern), ro, by
            simp [runProc, procStep, ho, runProc_done]⟩
      case InsufficientCapacity =>
        exact ⟨Except.error
          (OpenOrCreateError.OpenFailed OpenError.InsufficientCapacity), ro, by
            simp [runProc, procStep, ho, runProc_done]⟩
      case IncompatibleAttributes =>
        exact ⟨Except.error
          (OpenOrCreateError.OpenFailed OpenError.IncompatibleAttributes), ro, by
            simp [runProc, procStep, ho, runProc_done]⟩
    · exact ⟨Except.ok d, ro, by
        simp [runProc, procStep, ho, runProc_done]⟩

/-- C1: for every builder configuration, open_or_create follows the
algorithm: it attempts the open first and returns a successful open's
result; on `DoesNotExist` it attempts the create and returns a successful
create's result; a create that fails because a concurrent process already
created the service retries the open; and the retry is bounded by the small
fixed count 4 rather than looping forever - with the budget spent a lost
create surfaces `RetriesExhausted`, and from any registry state the loop
finishes within `2 * fuel + 2` steps, which is exactly the step budget
`open_or_create` runs. -/
theorem open_or_create_follows_bounded_retry_algorithm :
    OPEN_OR_CREATE_MAX_RETRIES = 4 ∧
    (∀ (p : ProcParams) (fuel : Nat) (r r1 : Registry) (d : ServiceDescriptor),
      ServiceRegistry.openService r p.name p.cfg p.ver = (r1, Except.ok d) →
      procStep p (OpenOrCreateState.tryOpen fuel) r =
        (OpenOrCreateState.done (Except.ok d), r1)) ∧
    (∀ (p : ProcParams) (fuel : Nat) (r r1 : Registry),
      ServiceRegistry.openService r p.name p.cfg p.ver =
        (r1, Except.error OpenError.DoesNotExist) →
      procStep p (OpenOrCreateState.tryOpen fuel) r =
        (OpenOrCreateState.tryCreate fuel, r1)) ∧
    (∀ (p : ProcParams) (fuel : Nat) (r r1 : Registry) (e : OpenError),
      e ≠ OpenError.DoesNotExist →
      ServiceRegistry.openService r p.name p.cfg p.ver = (r1, Except.error e) →
      procStep p (OpenOrCreateState.tryOpen fuel) r =
        (OpenOrCreateState.done (Except.error (OpenOrCreateError.OpenFailed e)), r1)) ∧
    (∀ (p : ProcParams) (fuel : Nat) (r r1 : Registry) (d : ServiceDescriptor),
      ServiceRegistry.create r p.name p.cfg p.attrs = (r1, Except.ok d) →
      procStep p (OpenOrCreateState.tryCreate fuel) r =
        (OpenOrCreateState.done (Except.ok d), r1)) ∧
    (∀ (p : ProcParams) (fuel : Nat) (r r1 : Registry),
      ServiceRegistry.create r p.name p.cfg p.attrs =
        (r1, Except.error CreateError.AlreadyExists) →
      procStep p (OpenOrCreateState.tryCreate (fuel + 1)) r =
        (OpenOrCreateState.tryOpen fuel, r1)) ∧
    (∀ (p : ProcParams) (r r1 : Registry),
      ServiceRegistry.create r p.name p.cfg p.attrs =
        (r1, Except.error CreateError.AlreadyExists) →
      procStep p (OpenOrCreateState.tryCreate 0) r =
        (OpenOrCreateState.done (Except.error OpenOrCreateError.RetriesExhausted), r1)) ∧
    (∀ (p : ProcParams) (fuel : Nat) (r : Registry), ∃ res r1,
      runProc (2 * fuel + 2) p (OpenOrCreateState.tryOpen fuel) r =
        (OpenOrCreateState.done res, r1)) ∧
    (∀ (p : ProcParams) (r r1 : Registry)
       (res : Except OpenOrCreateError ServiceDescriptor),
      runProc (2 * OPEN_OR_CREATE_MAX_RETRIES + 2) p
          (OpenOrCreateState.tryOpen OPEN_OR_CREATE_MAX_RETRIES) r =
        (OpenOrCreateState.done res, r1) →
      ServiceRegistry.open_or_create p r = (r1, res)) := by
  refine ⟨rfl, procStep_open_ok, procStep_open_missing, ?_,
    procStep_create_ok, procStep_create_lost_retries,
    procStep_create_lost_exhausted,
    fun p fuel r => runProc_tryOpen_reaches_done p fuel r, ?_⟩
  · intro p fuel r r1 e hne h
    exact procStep_open_error p fuel r r1 e hne h
  · intro p r r1 res h
    simp [ServiceRegistry.open_or_create, h]

/-- Witness for C1: the step equations and the loop exercised at concrete
registries - an open that succeeds, one that finds nothing, one that fails
terminally, a create that wins, a lost create that retries, a lost create
with spent budget, and a complete open_or_create run. -/
theorem open_or_create_follows_bounded_retry_algorithm_witness :
    procStep ⟨"s", sampleConfig, [], emptyVerifier⟩ (OpenOrCreateState.tryOpen 4)
        (regWith sampleConfig []) =
      (OpenOrCreateState.done (Except.ok ⟨sampleConfig, [], 1⟩),
        [("s", ⟨sampleConfig, [], 2⟩)]) ∧
    procStep ⟨"s", sampleConfig, [], emptyVerifier⟩ (OpenOrCreateState.tryOpen 4) [] =
      (OpenOrCreateState.tryCreate 4, []) ∧
    procStep ⟨"s", sampleConfig, [], emptyVerifier⟩ (OpenOrCreateState.tryOpen 4)
        (regWith sampleConfigB []) =
      (OpenOrCreateState.done
          (Except.error (OpenOrCreateError.OpenFailed OpenError.IncompatibleTypes)),
        regWith sampleConfigB []) ∧
    procStep ⟨"s", sampleConfig, [], emptyVerifier⟩ (OpenOrCreateState.tryCreate 4) [] =
      (OpenOrCreateState.done (Except.ok ⟨sampleConfig, [], 1⟩),
        [("s", ⟨sampleConfig, [], 1⟩)]) ∧
    procStep ⟨"s", sampleConfig, [], emptyVerifier⟩ (OpenOrCreateState.tryCreate (3 + 1))
        (regWith sampleConfig []) =
      (OpenOrCreateState.tryOpen 3, regWith sampleConfig []) ∧
    procStep ⟨"s", sampleConfig, [], emptyVerifier⟩ (OpenOrCreateState.tryCreate 0)
        (regWith sampleConfig []) =
      (OpenOrCreateState.done (Except.error OpenOrCreateError.RetriesExhausted),
        regWith sampleConfig []) ∧
    (∃ res r1, runProc (2 * 4 + 2) ⟨"s", sampleConfig, [], emptyVerifier⟩
        (OpenOrCreateState.tryOpen 4) [] = (OpenOrCreateState.done res, r1)) ∧
    ServiceRegistry.open_or_create ⟨"s", sampleConfig, [], emptyVerifier⟩ [] =
      ([("s", ⟨sampleConfig, [], 1⟩)], Except.ok ⟨sampleConfig, [], 1⟩) :=
  ⟨open_or_create_follows_bounded_retry_algorithm.2.1 _ 4 _ _ _ (by decide),
   open_or_create_follows_bounded_retry_algorithm.2.2.1 _ 4 _ _ (by decide),
   open_or_create_follows_bounded_retry_algorithm.2.2.2.1 _ 4 _ _
     OpenError.IncompatibleTypes (by decide) (by decide),
   open_or_create_follows_bounded_retry_algorithm.2.2.2.2.1 _ 4 _ _ _ (by decide),
   open_or_create_follows_bounded_retry_algorithm.2.2.2.2.2.1 _ 3 _ _ (by decide),
   open_or_create_follows_bounded_retry_algorithm.2.2.2.2.2.2.1 _ _ _ (by decide),
   open_or_create_follows_bounded_retry_algorithm.2.2.2.2.2.2.2.1 _ 4 [],
   open_or_create_follows_bounded_retry_algorithm.2.2.2.2.2.2.2.2 _ _ _ _ (by decide)⟩

/-- If the first step of the loop finishes, any longer run finishes with
the same result. -/
theorem runProc_step_then_done (k : Nat) (p : ProcParams)
    (s : OpenOrCreateState) (r : Registry)
    (res : Except OpenOrCreateError ServiceDescriptor) (r1 : Registry)
    (h : procStep p s r = (OpenOrCreateState.done res, r1)) :
    runProc (k + 1) p s r = (OpenOrCreateState.done res, r1) := by
  simp [runProc, h, runProc_done]

/-- C2: when two processes concurrently create the same service name -
modelled as the two atomic create steps executing in sequence against the
shared registry - exactly one create succeeds and the other observes the
name-conflict error `AlreadyExists`, leaving the registry as the winner
left it; and a loser racing via open_or_create with the winner's
configuration converges to opening the winner's descriptor. -/
theorem concurrent_create_exactly_one_winner
    (r : Registry) (name : String) (c1 c2 : BuilderConfig)
    (a1 a2 : AttributeSet) (h : findService r name = none) :
    (∀ r1 res1, ServiceRegistry.create r name c1 a1 = (r1, res1) →
      (∃ d, res1 = Except.ok d) ∧
      ∀ r2 res2, ServiceRegistry.create r1 name c2 a2 = (r2, res2) →
        res2 = Except.error CreateError.AlreadyExists ∧ r2 = r1) ∧
    (∀ r1 d1, ServiceRegistry.create r name c1 a1 = (r1, Except.ok d1) →
      ServiceRegistry.open_or_create ⟨name, c1, a2, emptyVerifier⟩ r1 =
        (attachService r1 name, Except.ok d1)) := by
  constructor
  · intro r1 res1 hcr
    simp only [ServiceRegistry.create, h] at hcr
    obtain ⟨hr1, hres1⟩ := Prod.mk.injEq .. ▸ hcr
    subst hr1
    refine ⟨⟨_, hres1.symm⟩, ?_⟩
    intro r2 res2 hcr2
    simp only [ServiceRegistry.create, findService, if_pos rfl] at hcr2
    obtain ⟨hr2, hres2⟩ := Prod.mk.injEq .. ▸ hcr2
    exact ⟨hres2.symm, hr2.symm⟩
  · intro r1 d1 hcr
    simp only [ServiceRegistry.create, h] at hcr
    obtain ⟨hr1, hd1⟩ := Prod.mk.injEq .. ▸ hcr
    subst hr1
    have hd1 : d1 = ⟨c1, a1, 1⟩ := by
      cases hd1
      rfl
    subst hd1
    have hopen : ServiceRegistry.openService ((name, ⟨c1, a1, 1⟩) :: r) name c1
        emptyVerifier =
        (attachService ((name, ⟨c1, a1, 1⟩) :: r) name, Except.ok ⟨c1, a1, 1⟩) := by
      simp [ServiceRegistry.openService, findService, typeContractsMatch_self,
        settingsMatch_self, capacitiesAtLeast_self, verifierSatisfied_empty]
    have hstep : procStep ⟨name, c1, a2, emptyVerifier⟩
        (OpenOrCreateState.tryOpen 4) ((name, ⟨c1, a1, 1⟩) :: r) =
        (OpenOrCreateState.done (Except.ok ⟨c1, a1, 1⟩),
          attachService ((name, ⟨c1, a1, 1⟩) :: r) name) :=
      procStep_open_ok _ _ _ _ _ hopen
    have hrun : runProc (2 * OPEN_OR_CREATE_MAX_RETRIES + 2)
        ⟨name, c1, a2, emptyVerifier⟩
        (OpenOrCreateState.tryOpen OPEN_OR_CREATE_MAX_RETRIES)
        ((name, ⟨c1, a1, 1⟩) :: r) =
        (OpenOrCreateState.done (Except.ok ⟨c1, a1, 1⟩),
          attachService ((name, ⟨c1, a1, 1⟩) :: r) name) := by
      have hb : 2 * OPEN_OR_CREATE_MAX_RETRIES + 2 = 9 + 1 := rfl
      rw [hb]
      exact runProc_step_then_done 9 _ _ _ _ _ hstep
    simp [ServiceRegistry.open_or_create, hrun]

/-- Witness for C2 at a concrete race on the empty registry: the first
create wins, the second observes `AlreadyExists`, and an open_or_create
run against the winner's registry opens the winner's descriptor. -/
theorem concurrent_create_exactly_one_winner_witness :
    ((∃ d, (Except.ok ⟨sampleConfig, [], 1⟩ :
        Except CreateError ServiceDescriptor) = Except.ok d) ∧
      ((Except.error CreateError.AlreadyExists :
          Except CreateError ServiceDescriptor) =
          Except.error CreateError.AlreadyExists ∧
        ([("s", ⟨sampleConfig, [], 1⟩)] : Registry) =
          [("s", ⟨sampleConfig, [], 1⟩)])) ∧
    ServiceRegistry.open_or_create ⟨"s", sampleConfig, [], emptyVerifier⟩
        [("s", ⟨sampleConfig, [], 1⟩)] =
      (attachService [("s", ⟨sampleConfig, [], 1⟩)] "s",
        Except.ok ⟨sampleConfig, [], 1⟩) := by
  have thm := concurrent_create_exactly_one_winner [] "s" sampleConfig
    sampleConfigB [] [] (by decide)
  have p1 := thm.1 [("s", ⟨sampleConfig, [], 1⟩)]
    (Except.ok ⟨sampleConfig, [], 1⟩) (by decide)
  exact ⟨⟨p1.1, p1.2 [("s", ⟨sampleConfig, [], 1⟩)]
      (Except.error CreateError.AlreadyExists) (by decide)⟩,
    thm.2 [("s", ⟨sampleConfig, [], 1⟩)] ⟨sampleConfig, [], 1⟩ (by decide)⟩

/-- C3: for every valid configuration C, create with C followed immediately
by an open whose requested capacities are all at most the corresponding
field of C succeeds, and the opened descriptor - the one the returned port
factory wraps - carries exactly C's capacities (the creator's values), not
the opener's minimums. -/
theorem create_then_open_effective_capacities
    (r : Registry) (name : String) (cfgC cfgO : BuilderConfig)
    (attrsC : AttributeSet) (ver : AttributeVerifier)
    (hfresh : findService r name = none)
    (htypes : typeContractsMatch cfgC cfgO = true)
    (hset : settingsMatch cfgC cfgO = true)
    (hcaps : capacitiesAtLeast cfgC.capacities cfgO.capacities = true)
    (hver : verifierSatisfied attrsC ver = true) :
    (∀ r1 res, ServiceRegistry.create r name cfgC attrsC = (r1, res) →
      ∃ d, res = Except.ok d ∧
        ServiceRegistry.openService r1 name cfgO ver =
          (attachService r1 name, Except.ok d) ∧
        d.config.capacities = cfgC.capacities ∧ d.config = cfgC) ∧
    (∀ (b bO : ServiceBuilderRequestResponse) (r1 : Registry)
       (res : Except PyErr PortFactoryRequestResponse),
      b.inner = ⟨name, cfgC⟩ → bO.inner = ⟨name, cfgO⟩ → bO.kind = b.kind →
      b.create r = (r1, res) →
      ∃ f, res = Except.ok f ∧
        bO.openService r1 = (attachService r1 name, Except.ok f) ∧
        f.descriptor.config.capacities = cfgC.capacities) := by
  have hcreg : ∀ attrs, ServiceRegistry.create r name cfgC attrs =
      ((name, ⟨cfgC, attrs, 1⟩) :: r, Except.ok ⟨cfgC, attrs, 1⟩) := by
    intro attrs
    simp [ServiceRegistry.create, hfresh]
  have horeg : ∀ (attrs : AttributeSet), verifierSatisfied attrs ver = true →
      ServiceRegistry.openService ((name, ⟨cfgC, attrs, 1⟩) :: r) name cfgO ver =
        (attachService ((name, ⟨cfgC, attrs, 1⟩) :: r) name,
          Except.ok ⟨cfgC, attrs, 1⟩) := by
    intro attrs hv
    simp [ServiceRegistry.openService, findService, htypes, hset, hcaps, hv]
  constructor
  · intro r1 res hcr
    rw [hcreg attrsC] at hcr
    obtain ⟨hr1, hres⟩ := Prod.mk.injEq .. ▸ hcr
    subst hr1
    exact ⟨⟨cfgC, attrsC, 1⟩, hres.symm, horeg attrsC hver, rfl, rfl⟩
  · intro b bO r1 res hbi hbo hkind hcr
    have hoempty : ServiceRegistry.openService
        ((name, ⟨cfgC, [], 1⟩) :: r) name cfgO emptyVerifier =
        (attachService ((name, ⟨cfgC, [], 1⟩) :: r) name,
          Except.ok ⟨cfgC, [], 1⟩) := by
      simp [ServiceRegistry.openService, findService, htypes, hset, hcaps,
        verifierSatisfied_empty]
    rcases b with ⟨bi | bi⟩ <;> rcases bO with ⟨bj | bj⟩ <;>
      simp only [ServiceBuilderRequestResponse.inner] at hbi hbo <;>
      subst hbi <;> subst hbo
    · simp only [ServiceBuilderRequestResponse.create, hcreg []] at hcr
      obtain ⟨hr1, hres⟩ := Prod.mk.injEq .. ▸ hcr
      subst hr1
      refine ⟨⟨PortFactoryRequestResponseType.Ipc ⟨cfgC, [], 1⟩⟩, hres.symm, ?_, rfl⟩
      simp [ServiceBuilderRequestResponse.openService, hoempty]
    · exact absurd hkind (by simp [ServiceBuilderRequestResponse.kind])
    · exact absurd hkind (by simp [ServiceBuilderRequestResponse.kind])
    · simp only [ServiceBuilderRequestResponse.create, hcreg []] at hcr
      obtain ⟨hr1, hres⟩ := Prod.mk.injEq .. ▸ hcr
      subst hr1
      refine ⟨⟨PortFactoryRequestResponseType.Local ⟨cfgC, [], 1⟩⟩, hres.symm, ?_, rfl⟩
      simp [ServiceBuilderRequestResponse.openService, hoempty]

/-- Witness for C3: create with max_clients 4, then open requesting
minimum 2 - the open succeeds and the opened capacities are the creator's. -/
theorem create_then_open_effective_capacities_witness :
    (∃ d, (Except.ok ⟨cfgWithClients 4, [("env", "prod")], 1⟩ :
        Except CreateError ServiceDescriptor) = Except.ok d ∧
      ServiceRegistry.openService
          [("s", ⟨cfgWithClients 4, [("env", "prod")], 1⟩)] "s"
          (cfgWithClients 2) ⟨[("env", "prod")], []⟩ =
        (attachService [("s", ⟨cfgWithClients 4, [("env", "prod")], 1⟩)] "s",
          Except.ok d) ∧
      d.config.capacities = (cfgWithClients 4).capacities ∧
      d.config = cfgWithClients 4) ∧
    (∃ f, (Except.ok ⟨PortFactoryRequestResponseType.Ipc ⟨cfgWithClients 4, [], 1⟩⟩ :
        Except PyErr PortFactoryRequestResponse) = Except.ok f ∧
      (ipcBuilder (cfgWithClients 2)).openService
          [("s", ⟨cfgWithClients 4, [], 1⟩)] =
        (attachService [("s", ⟨cfgWithClients 4, [], 1⟩)] "s", Except.ok f) ∧
      f.descriptor.config.capacities = (cfgWithClients 4).capacities) := by
  have thm := create_then_open_effective_capacities [] "s" (cfgWithClients 4)
    (cfgWithClients 2) [("env", "prod")] ⟨[("env", "prod")], []⟩
    (by decide) (by decide) (by decide) (by decide) (by decide)
  exact ⟨thm.1 [("s", ⟨cfgWithClients 4, [("env", "prod")], 1⟩)]
      (Except.ok ⟨cfgWithClients 4, [("env", "prod")], 1⟩) (by decide),
    thm.2 (ipcBuilder (cfgWithClients 4)) (ipcBuilder (cfgWithClients 2))
      [("s", ⟨cfgWithClients 4, [], 1⟩)]
      (Except.ok ⟨PortFactoryRequestResponseType.Ipc ⟨cfgWithClients 4, [], 1⟩⟩)
      rfl rfl rfl (by decide)⟩

/-- C4: each capacity an opener supplies is a minimum requirement: with the
service found and the type contracts and pattern flags matching, open fails
with `InsufficientCapacity` (the CapacityViolation kind) exactly when some
requested minimum exceeds the existing service's actual capacity, and
succeeds when every requested minimum is within the actual capacities and
the attribute requirements hold. -/
theorem open_capacity_minimum
    (r : Registry) (name : String) (cfgO : BuilderConfig)
    (d : ServiceDescriptor) (ver : AttributeVerifier)
    (hfind : findService r name = some d)
    (htypes : typeContractsMatch d.config cfgO = true)
    (hset : settingsMatch d.config cfgO = true) :
    (capacitiesAtLeast d.config.capacities cfgO.capacities = false →
      ServiceRegistry.openService r name cfgO ver =
        (r, Except.error OpenError.InsufficientCapacity)) ∧
    (capacitiesAtLeast d.config.capacities cfgO.capacities = true →
      verifierSatisfied d.attributes ver = true →
      ServiceRegistry.openService r name cfgO ver =
        (attachService r name, Except.ok d)) := by
  constructor
  · intro hcaps
    simp [ServiceRegistry.openService, hfind, htypes, hset, hcaps]
  · intro hcaps hv
    simp [ServiceRegistry.openService, hfind, htypes, hset, hcaps, hv]

/-- Witness for C4, the spec's scenario: after create with max_clients 4,
an open requesting minimum 8 fails with `InsufficientCapacity` while an
open requesting minimum 2 succeeds. -/
theorem open_capacity_minimum_witness :
    ServiceRegistry.openService (regWith (cfgWithClients 4) []) "s"
        (cfgWithClients 8) emptyVerifier =
      (regWith (cfgWithClients 4) [],
        Except.error OpenError.InsufficientCapacity) ∧
    ServiceRegistry.openService (regWith (cfgWithClients 4) []) "s"
        (cfgWithClients 2) emptyVerifier =
      (attachService (regWith (cfgWithClients 4) []) "s",
        Except.ok ⟨cfgWithClients 4, [], 1⟩) :=
  ⟨(open_capacity_minimum (regWith (cfgWithClients 4) []) "s" (cfgWithClients 8)
      ⟨cfgWithClients 4, [], 1⟩ emptyVerifier (by decide) (by decide)
      (by decide)).1 (by decide),
   (open_capacity_minimum (regWith (cfgWithClients 4) []) "s" (cfgWithClients 2)
      ⟨cfgWithClients 4, [], 1⟩ emptyVerifier (by decide) (by decide)
      (by decide)).2 (by decide) (by decide)⟩

/-- A Boolean `all` over a list is false exactly when some element
falsifies the predicate. -/
theorem all_false_iff {α : Type} (l : List α) (f : α → Bool) :
    l.all f = false ↔ ∃ x ∈ l, f x = false := by
  rw [← Bool.not_eq_true, List.all_eq_true]
  push_neg
  simp [Bool.not_eq_true]

/-- C5: attribute matching at open time is order-independent over the
requirement set - permuting the required pairs and required keys never
changes the verdict - and fails closed: the verifier is unsatisfied exactly
when some required pair or required key is missing from the service's
attribute set, in which case an open with that verifier (the service found
and otherwise compatible) aborts with `IncompatibleAttributes`, while a
satisfied verifier lets the open succeed. -/
theorem attribute_matching_order_independent_fails_closed
    (s : AttributeSet) (v v' : AttributeVerifier)
    (r : Registry) (name : String) (cfgO : BuilderConfig)
    (d : ServiceDescriptor)
    (hfind : findService r name = some d)
    (htypes : typeContractsMatch d.config cfgO = true)
    (hset : settingsMatch d.config cfgO = true)
    (hcaps : capacitiesAtLeast d.config.capacities cfgO.capacities = true) :
    (List.Perm v.required_attributes v'.required_attributes →
      List.Perm v.required_keys v'.required_keys →
      verifierSatisfied s v = verifierSatisfied s v') ∧
    (verifierSatisfied s v = false ↔
      (∃ kv ∈ v.required_attributes, attributeSetContainsPair s kv = false) ∨
      (∃ k ∈ v.required_keys, attributeSetContainsKey s k = false)) ∧
    (verifierSatisfied d.attributes v = false →
      ServiceRegistry.openService r name cfgO v =
        (r, Except.error OpenError.IncompatibleAttributes)) ∧
    (verifierSatisfied d.attributes v = true →
      ServiceRegistry.openService r name cfgO v =
        (attachService r name, Except.ok d)) := by
  refine ⟨?_, ?_, ?_, ?_⟩
  · intro hp hk
    simp only [verifierSatisfied]
    rw [all_eq_of_perm _ hp, all_eq_of_perm _ hk]
  · constructor
    · intro hfalse
      rcases hb : v.required_attributes.all fun kv => attributeSetContainsPair s kv with _ | _
      · exact Or.inl ((all_false_iff _ _).mp hb)
      · have hb2 : (v.required_keys.all fun k => attributeSetContainsKey s k) = false := by
          simpa [verifierSatisfied, hb] using hfalse
        exact Or.inr ((all_false_iff _ _).mp hb2)
    · intro hunmet
      rcases hunmet with h | h
      · have hb := (all_false_iff _ _).mpr h
        simp [verifierSatisfied, hb]
      · have hb := (all_false_iff _ _).mpr h
        simp [verifierSatisfied, hb]
  · intro hv
    simp [ServiceRegistry.openService, hfind, htypes, hset, hcaps, hv]
  · intro hv
    simp [ServiceRegistry.openService, hfind, htypes, hset, hcaps, hv]

/-- Witness for C5, the spec's scenario: a service created with
env = prod; permuted requirement sets agree, requiring env = dev fails
closed with `IncompatibleAttributes`, and requiring env = prod (plus the
key env) succeeds. -/
theorem attribute_matching_order_independent_fails_closed_witness :
    verifierSatisfied [("env", "prod")]
        ⟨[("env", "prod"), ("tier", "a")], ["env", "tier"]⟩ =
      verifierSatisfied [("env", "prod")]
        ⟨[("tier", "a"), ("env", "prod")], ["tier", "env"]⟩ ∧
    (verifierSatisfied [("env", "prod")] ⟨[("env", "dev")], []⟩ = false ↔
      (∃ kv ∈ [("env", "dev")],
        attributeSetContainsPair [("env", "prod")] kv = false) ∨
      (∃ k ∈ ([] : List String),
        attributeSetContainsKey [("env", "prod")] k = false)) ∧
    ServiceRegistry.openService (regWith sampleConfig [("env", "prod")]) "s"
        sampleConfig ⟨[("env", "dev")], []⟩ =
      (regWith sampleConfig [("env", "prod")],
        Except.error OpenError.IncompatibleAttributes) ∧
    ServiceRegistry.openService (regWith sampleConfig [("env", "prod")]) "s"
        sampleConfig ⟨[("env", "prod")], ["env"]⟩ =
      (attachService (regWith sampleConfig [("env", "prod")]) "s",
        Except.ok ⟨sampleConfig, [("env", "prod")], 1⟩) := by
  have t1 := attribute_matching_order_independent_fails_closed [("env", "prod")]
    ⟨[("env", "prod"), ("tier", "a")], ["env", "tier"]⟩
    ⟨[("tier", "a"), ("env", "prod")], ["tier", "env"]⟩
    (regWith sampleConfig [("env", "prod")]) "s" sampleConfig
    ⟨sampleConfig, [("env", "prod")], 1⟩ (by decide) (by decide) (by decide)
    (by decide)
  have t2 := attribute_matching_order_independent_fails_closed [("env", "prod")]
    ⟨[("env", "dev")], []⟩ ⟨[("env", "dev")], []⟩
    (regWith sampleConfig [("env", "prod")]) "s" sampleConfig
    ⟨sampleConfig, [("env", "prod")], 1⟩ (by decide) (by decide) (by decide)
    (by decide)
  have t3 := attribute_matching_order_independent_fails_closed [("env", "prod")]
    ⟨[("env", "prod")], ["env"]⟩ ⟨[("env", "prod")], ["env"]⟩
    (regWith sampleConfig [("env", "prod")]) "s" sampleConfig
    ⟨sampleConfig, [("env", "prod")], 1⟩ (by decide) (by decide) (by decide)
    (by decide)
  exact ⟨t1.1 (by decide) (by decide), t2.2.1, t2.2.2.1 (by decide),
    t3.2.2.2 (by decide)⟩
